import Mathlib

/-!
# rnx2rtkp: the advisory bridge to the embedded Python engine

A shallow embedding of the bridge code of `src/app/rnx2rtkp/rnx2rtkp.c`
(the "lzw adds" part): the four facade functions `get_coff`, `is_NLOS`,
`is_VS`, `store_info`, the module import and entry-point resolution in `main`,
the environment overlay and the teardown at the end of `main`.

The CPython runtime is outside the repository.  It is modelled as a fake
runtime that records every C-API call the bridge makes in an event log; the
external engine (the Python functions behind the entry points) is a parameter
that may answer each call with any object or with an error, depending on the
whole history.  A C action with undefined behaviour (dereferencing a null
handle, using a handle after its release or after `Py_Finalize`) ends the run
with a `Fault`: the model says nothing about what happens afterwards.

Machine integers: the platform is LP64 (the hard-coded `/home/...` module path
at line 417 is a Linux path), so `long` has 64 bits and `int` has 32 bits.
-/

namespace Rnx2rtkp

/-! ## C values -/

/-- Values of a C `double`: a finite value is kept as the rational number it
denotes; the two infinities and NaN are values of their own. -/
inductive CDouble where
  | finite (q : ℚ)
  | posInf
  | negInf
  | nan
  deriving DecidableEq

/-- The C comparison `x > 0` on doubles (false on NaN). -/
def CDouble.gtZero : CDouble → Bool
  | .finite q => decide (0 < q)
  | .posInf => true
  | .negInf => false
  | .nan => false

/-- The C comparison `x != 1` on doubles (true on NaN). -/
def CDouble.neOne : CDouble → Bool
  | .finite q => decide (q ≠ 1)
  | .posInf => true
  | .negInf => true
  | .nan => true

/-- The double constant `1.0` (the literal `1` of `return 1;` converted to double). -/
def CDouble.one : CDouble := .finite 1

/-- The double constant `-1.0`, the error value of `PyFloat_AsDouble`. -/
def CDouble.negOne : CDouble := .finite (-1)

/-- Smallest value of a C `long` (64 bits). -/
def LONG_MIN : Int := -(2 ^ 63)

/-- Largest value of a C `long` (64 bits). -/
def LONG_MAX : Int := 2 ^ 63 - 1

/-- Smallest value of a C `int` (32 bits). -/
def INT_MIN : Int := -(2 ^ 31)

/-- Largest value of a C `int` (32 bits). -/
def INT_MAX : Int := 2 ^ 31 - 1

/-- The conversion of a `long` to `int` done by `int result = PyLong_AsLong(..)`:
the value is reduced modulo `2^32` into the range of `int`. -/
def long2int (x : Int) : Int := (x + 2 ^ 31) % 2 ^ 32 - 2 ^ 31

/-! ## The fake Python runtime -/

/-- A Python object as far as the bridge can observe it: the integer it
converts to (what `PyLong_AsLong` reads, unbounded), if any, and the float it
converts to (what `PyFloat_AsDouble` reads), if any. -/
structure PyObject where
  index : Option Int
  float : Option CDouble
  deriving DecidableEq

/-- A Python int object `n` of moderate size (one a double represents
exactly, so that its float view is `n` itself). -/
def PyObject.int (n : Int) : PyObject := ⟨some n, some (CDouble.finite n)⟩

/-- A Python float object. It has no integer view: `PyLong_AsLong` refuses it. -/
def PyObject.ofDouble (d : CDouble) : PyObject := ⟨none, some d⟩

/-- An object such as `None` or a string, with no integer and no float view. -/
def PyObject.other : PyObject := ⟨none, none⟩

/-- The function `PyLong_AsLong` of the runtime: the value as a C `long`, or `-1` (with an error
set) when the object has no integer value or that value does not fit a `long`. -/
def PyLong_AsLong (o : PyObject) : Int :=
  match o.index with
  | none => -1
  | some n => if LONG_MIN ≤ n ∧ n ≤ LONG_MAX then n else -1

/-- The function `PyFloat_AsDouble` of the runtime: the value as a C `double`, or `-1.0` (with an
error set) when the object has no float value. -/
def PyFloat_AsDouble (o : PyObject) : CDouble :=
  match o.float with
  | none => CDouble.negOne
  | some d => d

/-- An element of an argument tuple built by the bridge. -/
inductive PyArg where
  | str (s : String)
  | long (n : Int)
  | float (d : CDouble)
  deriving DecidableEq

/-- The global `PyObject *` variables of lines 97-99. -/
inductive Global where
  | pFunc_checksat
  | pFunc_storeinfo
  | pFunc_save
  | pFunc_getval
  | pFunc_checkvs
  | pModule
  | pName
  deriving DecidableEq

/-- What a `Py_DECREF` is applied to: one of the globals, or one of the locals
`pArgs` and `pValue` of a facade function. -/
inductive Ref where
  | global (g : Global)
  | pArgs
  | pValue
  deriving DecidableEq

/-- One recorded action of the bridge on the runtime, or a `trace` line (its
level and its format string, without the final newline). -/
inductive Event where
  | Py_Initialize
  | PyRun_SimpleString (s : String)
  | PyUnicode_DecodeFSDefault (s : String)
  | PyImport_Import (found : Bool)
  | PyObject_GetAttrString (name : String) (found : Bool)
  | PyCallable_Check (g : Global)
  | PyTuple_New (n : Nat)
  | PyObject_CallObject (g : Global) (args : List PyArg) (ret : Option PyObject)
  | Py_DECREF (r : Ref)
  | PyErr_Print
  | Py_Finalize
  | trace (level : Nat) (msg : String)
  deriving DecidableEq

/-- A resolved attribute of the module: a non-null `PyObject *`; `callable` is
what `PyCallable_Check` answers for it. -/
structure PyFunc where
  callable : Bool
  deriving DecidableEq

/-- The module `asset` as the import sees it: for each of the five names the
attribute, or nothing when the module has no such attribute. -/
structure Module where
  check_sat : Option PyFunc
  check_vs : Option PyFunc
  store_info : Option PyFunc
  save_info : Option PyFunc
  get_val : Option PyFunc
  deriving DecidableEq

/-- The external engine: what a call of an entry point gives back, after the
history `log`, for the arguments `args`: `none` is the `NULL` of a call that
raised an error, `some o` a new reference to the result object. -/
abbrev Engine := List Event → Global → List PyArg → Option PyObject

/-- Undefined behaviour of the C program. -/
inductive Fault where
  | nullDereference
  | staleHandle
  deriving DecidableEq

/-- The globals of lines 97-99 together with the event log of the fake runtime. -/
structure State where
  pFunc_checksat : Option PyFunc
  pFunc_storeinfo : Option PyFunc
  pFunc_save : Option PyFunc
  pFunc_getval : Option PyFunc
  pFunc_checkvs : Option PyFunc
  pModule : Option Module
  log : List Event
  deriving DecidableEq

/-- The state at program start: every global is `NULL`, nothing has happened. -/
def State.start : State := ⟨none, none, none, none, none, none, []⟩

/-- Record an event at the end of the log. -/
def State.emit (st : State) (e : Event) : State := { st with log := st.log ++ [e] }

/-- A handle is stale once its reference has been released with `Py_DECREF` or
the runtime has been finalised. -/
def stale (log : List Event) (g : Global) : Bool :=
  log.contains Event.Py_Finalize || log.contains (Event.Py_DECREF (Ref.global g))

/-- The test `p && PyCallable_Check(p)` on a global `g` holding `p`: false
without touching the runtime when `p` is `NULL`; on a stale handle the
behaviour is undefined. -/
def available (g : Global) (p : Option PyFunc) (st : State) : Except Fault (Bool × State) :=
  match p with
  | none => .ok (false, st)
  | some f =>
    if stale st.log g then .error Fault.staleHandle
    else .ok (f.callable, st.emit (Event.PyCallable_Check g))

/-- The argument tuple `(id, week, gpst)` of lines 111-114. -/
def args3 (id : String) (week gpst : Int) : List PyArg :=
  [PyArg.str id, PyArg.long week, PyArg.long gpst]

/-- The call `PyObject_CallObject(g, pArgs)` followed by `Py_DECREF(pArgs)`,
after `PyTuple_New(n)` and the `n` `PyTuple_SetItem`. -/
def callObject (eng : Engine) (g : Global) (args : List PyArg) (st : State) :
    Option PyObject × State :=
  let st1 := st.emit (Event.PyTuple_New args.length)
  let pValue := eng st1.log g args
  (pValue, (st1.emit (Event.PyObject_CallObject g args pValue)).emit (Event.Py_DECREF Ref.pArgs))

/-! ## The facade functions (lines 105-261) -/

/-- The function `get_coff` (lines 105-148). -/
def get_coff (eng : Engine) (id : String) (week gpst : Int) (st : State) :
    Except Fault (CDouble × State) :=
  match available Global.pFunc_getval st.pFunc_getval st with
  | .error e => .error e
  | .ok (false, st1) => .ok (CDouble.one, st1.emit (Event.trace 2 "[lzw] pFunc_getval failed"))
  | .ok (true, st1) =>
    match callObject eng Global.pFunc_getval (args3 id week gpst) st1 with
    | (none, st2) => .ok (CDouble.one, st2.emit (Event.trace 2 "[lzw] get_coff pValue failed"))
    | (some pValue, st2) =>
      let result := PyFloat_AsDouble pValue
      if result.gtZero then
        let st3 := st2.emit (Event.Py_DECREF Ref.pValue)
        if result.neOne then
          .ok (result, st3.emit (Event.trace 4 "[lzw] get_coff result=%f NLOS"))
        else
          .ok (result, st3.emit (Event.trace 4 "[lzw] get_coff result=%f LOS"))
      else .ok (CDouble.one, st2)

/-- The function `is_NLOS` (lines 150-185). -/
def is_NLOS (eng : Engine) (id : String) (week gpst : Int) (st : State) :
    Except Fault (Int × State) :=
  match available Global.pFunc_checksat st.pFunc_checksat st with
  | .error e => .error e
  | .ok (false, st1) => .ok (0, st1.emit (Event.trace 2 "[lzw] pFunc_checksat failed"))
  | .ok (true, st1) =>
    match callObject eng Global.pFunc_checksat (args3 id week gpst) st1 with
    | (none, st2) => .ok (0, st2.emit (Event.trace 2 "[lzw] is_NLOS pValue failed"))
    | (some pValue, st2) =>
      let result := long2int (PyLong_AsLong pValue)
      if result > 0 then
        .ok (result, (st2.emit (Event.Py_DECREF Ref.pValue)).emit
          (Event.trace 4 "[lzw] is_NLOS result=%d"))
      else .ok (0, st2)

/-- The function `is_VS` (lines 187-221). -/
def is_VS (eng : Engine) (id : String) (week gpst : Int) (st : State) :
    Except Fault (Int × State) :=
  let st0 := st.emit (Event.trace 5 "is_VS(%s, %d, %d)")
  match available Global.pFunc_checkvs st0.pFunc_checkvs st0 with
  | .error e => .error e
  | .ok (false, st1) => .ok (0, st1.emit (Event.trace 2 "[lzw] pFunc_checkvs failed"))
  | .ok (true, st1) =>
    match callObject eng Global.pFunc_checkvs (args3 id week gpst) st1 with
    | (none, st2) => .ok (0, st2.emit (Event.trace 2 "[lzw] is_VS pValue failed"))
    | (some pValue, st2) =>
      let result := long2int (PyLong_AsLong pValue)
      let st3 := (st2.emit (Event.Py_DECREF Ref.pValue)).emit
        (Event.trace 5 "[lzw] is_vs result=%d")
      if result > 0 then .ok (1, st3) else .ok (0, st3)

/-- The epoch time `gtime_t` of rtklib: whole seconds and a fraction. -/
structure gtime_t where
  time : Int
  sec : CDouble
  deriving DecidableEq

/-- The argument tuple `(week, tow, key, val)` of lines 228-234. -/
def args4 (week : Int) (tow : CDouble) (key val : String) : List PyArg :=
  [PyArg.long week, PyArg.float tow, PyArg.str key, PyArg.str val]

/-- The function `store_info` (lines 223-261). The rtklib function `time2gpst`, which is
not part of this file, is a parameter: it gives the time of week and, through
its pointer argument, the week. -/
def store_info (time2gpst : gtime_t → CDouble × Int) (eng : Engine)
    (gtime : gtime_t) (key val : String) (st : State) : Except Fault (Int × State) :=
  match available Global.pFunc_storeinfo st.pFunc_storeinfo st with
  | .error e => .error e
  | .ok (false, st1) => .ok (-1, st1.emit (Event.trace 2 "[lzw] pFunc_storeinfo failed"))
  | .ok (true, st1) =>
    let tw := time2gpst gtime
    match callObject eng Global.pFunc_storeinfo (args4 tw.2 tw.1 key val) st1 with
    | (none, st2) => .ok (-1, st2.emit (Event.trace 2 "[lzw] store_info pValue failed"))
    | (some pValue, st2) =>
      let result := long2int (PyLong_AsLong pValue)
      if result > 0 then
        .ok (result, (st2.emit (Event.Py_DECREF Ref.pValue)).emit
          (Event.trace 5 "[lzw] store_info result=%d"))
      else .ok (-1, st2)

/-! ## Module import and entry-point resolution (lines 411-487) -/

/-- One of the five blocks of lines 433-481: the availability test of a slot,
then `trace(1, "... succeed")`, or `trace(1, "... failed")` and `PyErr_Print()`. -/
def report (g : Global) (p : Option PyFunc) (name : String) (st : State) : Except Fault State :=
  match available g p st with
  | .error e => .error e
  | .ok (true, st1) => .ok (st1.emit (Event.trace 1 (name ++ " succeed")))
  | .ok (false, st1) =>
    .ok ((st1.emit (Event.trace 1 (name ++ " failed"))).emit Event.PyErr_Print)

/-- Lines 411-487 of `main`: start the runtime, extend the module path, import
the module `asset` (`m` says what the import finds: `none` when it fails) and
look up the five entry points. -/
def py_init (m : Option Module) (st : State) : Except Fault State :=
  let s1 := st.emit Event.Py_Initialize
  let s2 := s1.emit (Event.PyRun_SimpleString "import  sys")
  let s3 := s2.emit (Event.PyRun_SimpleString "import  os")
  let s4 := s3.emit (Event.PyRun_SimpleString "sys.path.append(os.getcwd())")
  let s5 := s4.emit (Event.PyRun_SimpleString
    "sys.path.append('/home/zongwei/ws/projects/gnss_analyze/apps/positioning')")
  let s6 := s5.emit (Event.PyRun_SimpleString
    "sys.path.append('/home/zongwei/ws/projects/gnss_analyze')")
  let s7 := s6.emit (Event.PyUnicode_DecodeFSDefault "asset")
  let s8 := { s7.emit (Event.PyImport_Import m.isSome) with pModule := m }
  let s9 := s8.emit (Event.Py_DECREF (Ref.global Global.pName))
  match m with
  | some md =>
    let a1 := { s9.emit (Event.PyObject_GetAttrString "check_sat" md.check_sat.isSome) with
      pFunc_checksat := md.check_sat }
    let a2 := { a1.emit (Event.PyObject_GetAttrString "check_vs" md.check_vs.isSome) with
      pFunc_checkvs := md.check_vs }
    let a3 := { a2.emit (Event.PyObject_GetAttrString "store_info" md.store_info.isSome) with
      pFunc_storeinfo := md.store_info }
    let a4 := { a3.emit (Event.PyObject_GetAttrString "save_info" md.save_info.isSome) with
      pFunc_save := md.save_info }
    let a5 := { a4.emit (Event.PyObject_GetAttrString "get_val" md.get_val.isSome) with
      pFunc_getval := md.get_val }
    let a6 := a5.emit (Event.Py_DECREF (Ref.global Global.pModule))
    let a7 := a6.emit (Event.trace 1 "pModule succeed")
    do
      let b1 ← report Global.pFunc_checksat a7.pFunc_checksat "pFunc_checksat" a7
      let b2 ← report Global.pFunc_checkvs b1.pFunc_checkvs "pFunc_checkvs" b1
      let b3 ← report Global.pFunc_storeinfo b2.pFunc_storeinfo "pFunc_storeinfo" b2
      let b4 ← report Global.pFunc_save b3.pFunc_save "pFunc_save" b3
      report Global.pFunc_getval b4.pFunc_getval "pFunc_getval" b4
  | none => .ok ((s9.emit (Event.trace 1 "pModule failed")).emit Event.PyErr_Print)

/-! ## The environment overlay (lines 100-103 and 488-514) -/

/-- Modelled from the spec: the declaration of `struct LZW_CONFIG` is in
`rtklib.h`, which is not among the sources. The fields are those `main` uses
(lines 489-513); the initialiser of lines 100-103 gives five null strings, four
zero integers and the double `1.0`, which the spec (section 3) reads as the
defaults `0` of the four integer values and `1.0` of `k_val`. -/
structure LZW_CONFIG where
  nlos_env : Option String
  varr_env : Option String
  vs_env : Option String
  k_env : Option String
  ar_env : Option String
  nlos_val : Int
  varr_val : Int
  vs_val : Int
  ar_val : Int
  k_val : CDouble

/-- The initial value of the global `lzw_config` (lines 100-103). -/
def lzw_config : LZW_CONFIG := ⟨none, none, none, none, none, 0, 0, 0, 0, CDouble.one⟩

/-- Lines 489-514 of `main`. The process environment is `getenv` (`none` for an
unset variable); the C library functions `atoi` and `atof` are parameters. -/
def load_env (getenv : String → Option String) (atoi : String → Int)
    (atof : String → CDouble) (c : LZW_CONFIG) : LZW_CONFIG :=
  let c1 := { c with nlos_env := getenv "NLOS_ENV" }
  let c2 := { c1 with varr_env := getenv "VARR_ENV" }
  let c3 := { c2 with vs_env := getenv "VS" }
  let c4 := { c3 with k_env := getenv "K_COFF" }
  let c5 := { c4 with ar_env := getenv "AR_MODES" }
  let c6 := match c5.nlos_env with
    | some s => { c5 with nlos_val := atoi s }
    | none => c5
  let c7 := match c6.varr_env with
    | some s => { c6 with varr_val := atoi s }
    | none => c6
  let c8 := match c7.vs_env with
    | some s => { c7 with vs_val := atoi s }
    | none => c7
  let c9 := match c8.k_env with
    | some s => { c8 with k_val := atof s }
    | none => c8
  match c9.ar_env with
  | some s => { c9 with ar_val := atoi s }
  | none => c9

/-! ## The end of `main` (lines 546-557) -/

/-- The macro `Py_DECREF(p)` on a global `g` holding `p`. The macro does not test
for `NULL` (that is `Py_XDECREF`): on a null handle it dereferences it. -/
def Py_DECREF (g : Global) (p : Option PyFunc) (st : State) : Except Fault State :=
  match p with
  | none => .error Fault.nullDereference
  | some _ =>
    if stale st.log g then .error Fault.staleHandle
    else .ok (st.emit (Event.Py_DECREF (Ref.global g)))

/-- Lines 546-550: call `save_info` with no arguments when it is available; the
result is dropped. -/
def save_step (eng : Engine) (st : State) : Except Fault State :=
  match available Global.pFunc_save st.pFunc_save st with
  | .error e => .error e
  | .ok (true, st1) =>
    .ok (st1.emit (Event.PyObject_CallObject Global.pFunc_save []
      (eng st1.log Global.pFunc_save [])))
  | .ok (false, st1) => .ok st1

/-- Lines 552-557: release the handles and finalise the runtime. -/
def teardown (st : State) : Except Fault State := do
  let s1 ← Py_DECREF Global.pFunc_checksat st.pFunc_checksat st
  let s2 ← Py_DECREF Global.pFunc_storeinfo s1.pFunc_storeinfo s1
  let s3 ← Py_DECREF Global.pFunc_save s2.pFunc_save s2
  let s4 ← Py_DECREF Global.pFunc_getval s3.pFunc_getval s3
  pure (s4.emit Event.Py_Finalize)

/-- Lines 546-557: the save step, then the teardown. -/
def finalizer (eng : Engine) (st : State) : Except Fault State := do
  let s1 ← save_step eng st
  teardown s1

/-! ## Observations on the fake runtime and the vocabulary of the properties -/

/-- Whether an event is a call into the external engine. -/
def Event.isCall : Event → Bool
  | .PyObject_CallObject _ _ _ => true
  | _ => false

/-- Whether an event is a call into the engine that handed back a result object. -/
def Event.isAcquire : Event → Bool
  | .PyObject_CallObject _ _ (some _) => true
  | _ => false

/-- Whether an event releases the result object of a call. -/
def Event.isRelease : Event → Bool
  | .Py_DECREF Ref.pValue => true
  | _ => false

/-- Number of calls made into the external engine. -/
def engineCalls (log : List Event) : Nat := log.countP Event.isCall

/-- Number of result objects the engine handed back (successful calls). -/
def acquired (log : List Event) : Nat := log.countP Event.isAcquire

/-- Number of releases of result objects. -/
def released (log : List Event) : Nat := log.countP Event.isRelease

/-- A C `int` result read as a boolean by the caller: non-zero is true. -/
def truthy (n : Int) : Bool := n != 0

/-- One call of the facade by the positioning engine. -/
inductive Request where
  | get_coff (id : String) (week gpst : Int)
  | is_NLOS (id : String) (week gpst : Int)
  | is_VS (id : String) (week gpst : Int)
  | store_info (gtime : gtime_t) (key val : String)

/-- What a facade function returns: a `double` or an `int`. -/
inductive Reply where
  | double (d : CDouble)
  | int (n : Int)
  deriving DecidableEq

/-- Run one facade call. -/
def Request.run (time2gpst : gtime_t → CDouble × Int) (eng : Engine) :
    Request → State → Except Fault (Reply × State)
  | .get_coff id week gpst, st =>
    (Rnx2rtkp.get_coff eng id week gpst st).map fun r => (Reply.double r.1, r.2)
  | .is_NLOS id week gpst, st =>
    (Rnx2rtkp.is_NLOS eng id week gpst st).map fun r => (Reply.int r.1, r.2)
  | .is_VS id week gpst, st =>
    (Rnx2rtkp.is_VS eng id week gpst st).map fun r => (Reply.int r.1, r.2)
  | .store_info gtime key val, st =>
    (Rnx2rtkp.store_info time2gpst eng gtime key val st).map fun r => (Reply.int r.1, r.2)

/-- The global holding the entry point of a facade call. -/
def Request.global : Request → Global
  | .get_coff _ _ _ => Global.pFunc_getval
  | .is_NLOS _ _ _ => Global.pFunc_checksat
  | .is_VS _ _ _ => Global.pFunc_checkvs
  | .store_info _ _ _ => Global.pFunc_storeinfo

/-- The value of the global holding the entry point of a facade call. -/
def Request.slot (st : State) : Request → Option PyFunc
  | .get_coff _ _ _ => st.pFunc_getval
  | .is_NLOS _ _ _ => st.pFunc_checksat
  | .is_VS _ _ _ => st.pFunc_checkvs
  | .store_info _ _ _ => st.pFunc_storeinfo

/-- What each facade function of the source returns when it makes no call. -/
def Request.fallback : Request → Reply
  | .get_coff _ _ _ => Reply.double CDouble.one
  | .is_NLOS _ _ _ => Reply.int 0
  | .is_VS _ _ _ => Reply.int 0
  | .store_info _ _ _ => Reply.int (-1)

/-- The entry point is unavailable: the slot is null, or it holds a live handle
that `PyCallable_Check` rejects. -/
def unavailable (g : Global) (p : Option PyFunc) (log : List Event) : Bool :=
  match p with
  | none => true
  | some f => !f.callable && !stale log g

/-- The five globals that hold entry-point handles. -/
def Global.isFunc : Global → Bool
  | .pFunc_checksat => true
  | .pFunc_storeinfo => true
  | .pFunc_save => true
  | .pFunc_getval => true
  | .pFunc_checkvs => true
  | .pModule => false
  | .pName => false

/-- The positioning run `postpos` (line 544) as the bridge sees it: the facade
calls it makes, in order; their results go to the positioning engine. -/
def postpos (time2gpst : gtime_t → CDouble × Int) (eng : Engine) :
    List Request → State → Except Fault State
  | [], st => .ok st
  | rq :: rest, st =>
    match rq.run time2gpst eng st with
    | .error e => .error e
    | .ok (_, st1) => postpos time2gpst eng rest st1

/-- The events of lines 411-431 when the import finds the module `md`: the log
at the moment the five availability reports of lines 433-481 begin. -/
def importLog (md : Module) : List Event :=
  [Event.Py_Initialize,
   Event.PyRun_SimpleString "import  sys",
   Event.PyRun_SimpleString "import  os",
   Event.PyRun_SimpleString "sys.path.append(os.getcwd())",
   Event.PyRun_SimpleString
     "sys.path.append('/home/zongwei/ws/projects/gnss_analyze/apps/positioning')",
   Event.PyRun_SimpleString "sys.path.append('/home/zongwei/ws/projects/gnss_analyze')",
   Event.PyUnicode_DecodeFSDefault "asset",
   Event.PyImport_Import true,
   Event.Py_DECREF (Ref.global Global.pName),
   Event.PyObject_GetAttrString "check_sat" md.check_sat.isSome,
   Event.PyObject_GetAttrString "check_vs" md.check_vs.isSome,
   Event.PyObject_GetAttrString "store_info" md.store_info.isSome,
   Event.PyObject_GetAttrString "save_info" md.save_info.isSome,
   Event.PyObject_GetAttrString "get_val" md.get_val.isSome,
   Event.Py_DECREF (Ref.global Global.pModule),
   Event.trace 1 "pModule succeed"]

/-- The log at the moment a facade function that was entered in state `st`
calls the engine through the global `g` with `n` arguments. -/
def callLog (g : Global) (n : Nat) (st : State) : List Event :=
  ((st.emit (Event.PyCallable_Check g)).emit (Event.PyTuple_New n)).log

/-- The coefficient as the specification words it, from the answer of the
engine: the value `v` when the call succeeded with a value `v > 0`, and `1.0`
when the call failed, the value converts to no float, or `v > 0` fails. -/
def coefficient : Option PyObject → CDouble
  | none => CDouble.one
  | some o =>
    match o.float with
    | none => CDouble.one
    | some v => if v.gtZero then v else CDouble.one

/-- A module that has all five entry points, all callable. -/
def fullModule : Module :=
  ⟨some ⟨true⟩, some ⟨true⟩, some ⟨true⟩, some ⟨true⟩, some ⟨true⟩⟩

/-- A module without `save_info`; the other four entry points are callable. -/
def noSaveModule : Module :=
  ⟨some ⟨true⟩, some ⟨true⟩, some ⟨true⟩, none, some ⟨true⟩⟩

/-- An engine whose every call returns the object `o`. -/
def constEngine (o : PyObject) : Engine := fun _ _ _ => some o

/-- An engine whose every call raises an error. -/
def failingEngine : Engine := fun _ _ _ => none

/-- A stand-in for `time2gpst`: seconds since the GPS epoch split into weeks of
604800 seconds (the fraction is carried over). -/
def weekSplit (t : gtime_t) : CDouble × Int :=
  (match t.sec with
    | .finite q => CDouble.finite (((t.time % 604800 : Int) : ℚ) + q)
    | d => d,
   t.time / 604800)

/-- The state after the import of the module failed: lines 411-487 run from the
program start with no module found. -/
def importFailedState : State :=
  match py_init none State.start with
  | .ok s => s
  | .error _ => State.start

/-- A state in which the five globals hold callable handles and nothing has
been released: the state right after the import of `fullModule`, log dropped. -/
def readyState : State :=
  ⟨some ⟨true⟩, some ⟨true⟩, some ⟨true⟩, some ⟨true⟩, some ⟨true⟩, some fullModule, []⟩

/-- The state `readyState` after the teardown of lines 552-557. -/
def tornDownState : State :=
  { readyState with log :=
      [Event.Py_DECREF (Ref.global Global.pFunc_checksat),
       Event.Py_DECREF (Ref.global Global.pFunc_storeinfo),
       Event.Py_DECREF (Ref.global Global.pFunc_save),
       Event.Py_DECREF (Ref.global Global.pFunc_getval),
       Event.Py_Finalize] }

/-! ## The `-sys` option (lines 276, 321-343 and 398-401) -/

/-- The navigation-system masks used by the `-sys` option. Their `#define`s are
in `rtklib.h`, which is not among the sources: they are parameters. -/
structure SysMasks where
  SYS_GPS : Nat
  SYS_GLO : Nat
  SYS_GAL : Nat
  SYS_QZS : Nat
  SYS_BDS : Nat
  SYS_IRN : Nat
  deriving DecidableEq

/-- The statements of the `switch` of lines 325-339, in their order, each with
the `case` label in front of it: `case 'G': prcopt.navsys |= SYS_GPS;` and so
on. No statement is followed by a `break`. -/
def sysCases (c : SysMasks) : List (Char × Nat) :=
  [('G', c.SYS_GPS), ('R', c.SYS_GLO), ('E', c.SYS_GAL), ('J', c.SYS_QZS),
   ('C', c.SYS_BDS), ('I', c.SYS_IRN)]

/-- The `switch (*p)` of lines 325-339: control enters at the label equal to
`*p` and runs every statement from there to the end of the switch; when no
label is equal to `*p` nothing is run (there is no `default`). -/
def sysSwitch (c : SysMasks) (ch : Char) (navsys : Nat) : Nat :=
  ((sysCases c).dropWhile (fun e => e.1 != ch)).foldl (fun n e => n ||| e.2) navsys

/-- The C function `strchr(p, ch)` for a character `ch` other than NUL: the rest of the
string from the first `ch` on, or `none` (the null pointer) when there is none. -/
def strchr : List Char → Char → Option (List Char)
  | [], _ => none
  | x :: xs, ch => if x = ch then some (x :: xs) else strchr xs ch

/-- The loop of lines 323-342 with `p` at the start of the given characters:
`for (...; *p; p++) { switch (*p) {...} if (!(p = strchr(p, ','))) break; }`.
Every turn moves `p` forward, so a fuel of the length of the string is enough
(`sysLoop_fuel`). -/
def sysLoop (c : SysMasks) : Nat → List Char → Nat → Nat
  | 0, _, navsys => navsys
  | _ + 1, [], navsys => navsys
  | fuel + 1, ch :: rest, navsys =>
    match strchr (ch :: rest) ',' with
    | none => sysSwitch c ch navsys
    | some q => sysLoop c fuel q.tail (sysSwitch c ch navsys)

/-- The effect of one option `-sys arg` on `prcopt.navsys` (lines 321-343). -/
def sys_option (c : SysMasks) (arg : String) (navsys : Nat) : Nat :=
  sysLoop c arg.length arg.toList navsys

/-- The value of `prcopt.navsys` after the option loop and lines 398-401.
`navsys0` is its value when the loop starts (`0` by line 276 when no `-k`
configuration file is given); `sysArgs` are the arguments of the `-sys` options
of the command line, in order. No other option touches `prcopt.navsys`. -/
def main_navsys (c : SysMasks) (navsys0 : Nat) (sysArgs : List String) : Nat :=
  let navsys := sysArgs.foldl (fun n arg => sys_option c arg n) navsys0
  if navsys = 0 then c.SYS_GPS ||| c.SYS_GLO else navsys

/-- The system a letter names in the help text of line 53
(`s=G:GPS,R:GLO,E:GAL,J:QZS,C:BDS,I:IRN`). -/
def namedSystem (c : SysMasks) (ch : Char) : Nat :=
  if ch = 'G' then c.SYS_GPS
  else if ch = 'R' then c.SYS_GLO
  else if ch = 'E' then c.SYS_GAL
  else if ch = 'J' then c.SYS_QZS
  else if ch = 'C' then c.SYS_BDS
  else if ch = 'I' then c.SYS_IRN
  else 0

/-- The mask the help text describes for a list of letters: the union of the
systems the letters name. -/
def listedSystems (c : SysMasks) (letters : List Char) : Nat :=
  letters.foldl (fun n ch => n ||| namedSystem c ch) 0

/-- One bit for each system: the values of the six macros in the `rtklib.h` of
RTKLIB (`0x01`, `0x04`, `0x08`, `0x10`, `0x20`, `0x40`), used to evaluate the
code on concrete command lines. -/
def rtklibMasks : SysMasks := ⟨0x01, 0x04, 0x08, 0x10, 0x20, 0x40⟩

/-! ## C1: unavailable entry points -/

/-- C1 (counterexample): with the `store_info` slot null, `store_info` makes no
call into the engine but returns `-1`, which a caller reading the result as a
boolean takes for true: its default is not false. -/
theorem store_info_null_slot_returns_minus_one :
    unavailable Global.pFunc_storeinfo State.start.pFunc_storeinfo State.start.log = true ∧
    (store_info weekSplit failingEngine ⟨0, CDouble.finite 0⟩ "k" "v" State.start).map
      (fun r => (r.1, truthy r.1, engineCalls r.2.log)) = .ok (-1, true, 0) :=
  ⟨rfl, rfl⟩

/-- C1 (amended): for each of the four facade operations and every argument, if
the slot of its entry point is null or holds a handle that is not callable, the
operation makes no call into the external engine and returns its fallback:
`1.0` for `get_coff`, `0` for `is_NLOS` and `is_VS`, and `-1` for `store_info`. -/
theorem unavailable_returns_fallback (time2gpst : gtime_t → CDouble × Int) (eng : Engine)
    (rq : Request) (st : State)
    (h : unavailable rq.global (rq.slot st) st.log = true) :
    ∃ st1, rq.run time2gpst eng st = .ok (rq.fallback, st1) ∧
      engineCalls st1.log = engineCalls st.log := by
  cases rq with
  | get_coff id week gpst =>
    simp only [Request.global, Request.slot] at h
    cases hp : st.pFunc_getval with
    | none =>
      simp [Request.run, Request.fallback, get_coff, hp, available, Except.map, State.emit,
        engineCalls, Event.isCall]
    | some f =>
      rw [hp] at h
      simp only [unavailable, Bool.and_eq_true, Bool.not_eq_true'] at h
      simp [Request.run, Request.fallback, get_coff, hp, available, h.1, h.2, Except.map,
        State.emit, engineCalls, Event.isCall]
  | is_NLOS id week gpst =>
    simp only [Request.global, Request.slot] at h
    cases hp : st.pFunc_checksat with
    | none =>
      simp [Request.run, Request.fallback, is_NLOS, hp, available, Except.map, State.emit,
        engineCalls, Event.isCall]
    | some f =>
      rw [hp] at h
      simp only [unavailable, Bool.and_eq_true, Bool.not_eq_true'] at h
      simp [Request.run, Request.fallback, is_NLOS, hp, available, h.1, h.2, Except.map,
        State.emit, engineCalls, Event.isCall]
  | is_VS id week gpst =>
    simp only [Request.global, Request.slot] at h
    have hs : stale (st.log ++ [Event.trace 5 "is_VS(%s, %d, %d)"]) Global.pFunc_checkvs
        = stale st.log Global.pFunc_checkvs := by
      simp [stale]
    cases hp : st.pFunc_checkvs with
    | none =>
      simp [Request.run, Request.fallback, is_VS, hp, available, Except.map, State.emit,
        engineCalls, Event.isCall]
    | some f =>
      rw [hp] at h
      simp only [unavailable, Bool.and_eq_true, Bool.not_eq_true'] at h
      simp [Request.run, Request.fallback, is_VS, hp, available, h.1, h.2, hs, Except.map,
        State.emit, engineCalls, Event.isCall]
  | store_info gtime key val =>
    simp only [Request.global, Request.slot] at h
    cases hp : st.pFunc_storeinfo with
    | none =>
      simp [Request.run, Request.fallback, store_info, hp, available, Except.map, State.emit,
        engineCalls, Event.isCall]
    | some f =>
      rw [hp] at h
      simp only [unavailable, Bool.and_eq_true, Bool.not_eq_true'] at h
      simp [Request.run, Request.fallback, store_info, hp, available, h.1, h.2, Except.map,
        State.emit, engineCalls, Event.isCall]

/-- C1 (witness): after a failed import all five slots are null, and `is_NLOS`
returns `0` without calling the engine. -/
theorem unavailable_returns_fallback_witness :
    unavailable (Request.is_NLOS "G01" 2200 345600).global
      ((Request.is_NLOS "G01" 2200 345600).slot importFailedState) importFailedState.log = true ∧
    ∃ st1, (Request.is_NLOS "G01" 2200 345600).run weekSplit (constEngine (PyObject.int 1))
        importFailedState = .ok ((Request.is_NLOS "G01" 2200 345600).fallback, st1) ∧
      engineCalls st1.log = engineCalls importFailedState.log :=
  ⟨rfl, unavailable_returns_fallback weekSplit (constEngine (PyObject.int 1))
    (Request.is_NLOS "G01" 2200 345600) importFailedState rfl⟩

/-! ## Conversions within the range of `int` -/

/-- A value within the range of `int` survives the narrowing unchanged. -/
theorem long2int_of_int_range (n : Int) (h1 : INT_MIN ≤ n) (h2 : n ≤ INT_MAX) :
    long2int n = n := by
  simp only [INT_MIN, INT_MAX] at h1 h2
  simp only [long2int]
  omega

/-- An integer result within the range of `int` reaches `result` unchanged. -/
theorem PyLong_AsLong_of_int_range (o : PyObject) (n : Int) (ho : o.index = some n)
    (h1 : INT_MIN ≤ n) (h2 : n ≤ INT_MAX) : long2int (PyLong_AsLong o) = n := by
  have h3 : LONG_MIN ≤ n ∧ n ≤ LONG_MAX := by
    simp only [INT_MIN, INT_MAX] at h1 h2
    simp only [LONG_MIN, LONG_MAX]
    omega
  simp only [PyLong_AsLong, ho, h3, and_self, if_true]
  exact long2int_of_int_range n h1 h2

/-- A result that converts to no integer reaches `result` as `-1`. -/
theorem PyLong_AsLong_of_no_index (o : PyObject) (ho : o.index = none) :
    long2int (PyLong_AsLong o) = -1 := by
  simp only [PyLong_AsLong, ho]
  rfl

/-! ## C2: fail-open flags -/

/-- C2 (the code at the failing input): `check_sat` and `check_vs` return the
integer `-4294967295`, which is not positive. `PyLong_AsLong` gives it as a
`long`, the assignment to `int result` keeps the low 32 bits, which are `1`,
and both `is_NLOS` and `is_VS` return `1` (true) instead of `0`. -/
theorem flags_true_on_negative_result :
    PyLong_AsLong (PyObject.int (-4294967295)) = -4294967295 ∧
    long2int (-4294967295) = 1 ∧
    (is_NLOS (constEngine (PyObject.int (-4294967295))) "G01" 2200 345600 readyState).map
      Prod.fst = .ok 1 ∧
    (is_VS (constEngine (PyObject.int (-4294967295))) "G01" 2200 345600 readyState).map
      Prod.fst = .ok 1 :=
  ⟨rfl, rfl, rfl, rfl⟩

/-- What the flag functions do hold: in a state with a live, callable
`check_sat` handle, `is_NLOS` returns `0` when the call fails, and otherwise
tests the result as narrowed to `int`: it returns that `int` when it is
positive and `0` when it is not. -/
theorem is_NLOS_value (eng : Engine) (id : String) (week gpst : Int) (st : State)
    (f : PyFunc) (hp : st.pFunc_checksat = some f) (hc : f.callable = true)
    (hs : stale st.log Global.pFunc_checksat = false) :
    ∃ st1, is_NLOS eng id week gpst st =
      .ok ((match eng (callLog Global.pFunc_checksat 3 st) Global.pFunc_checksat
              (args3 id week gpst) with
            | none => 0
            | some o =>
              if 0 < long2int (PyLong_AsLong o) then long2int (PyLong_AsLong o) else 0),
           st1) := by
  have hargs : (args3 id week gpst).length = 3 := rfl
  cases he : eng (callLog Global.pFunc_checksat 3 st) Global.pFunc_checksat
      (args3 id week gpst) with
  | none =>
    simp [callLog, State.emit] at he
    simp [is_NLOS, hp, available, hs, hc, callObject, hargs, he, State.emit]
  | some o =>
    simp [callLog, State.emit] at he
    by_cases hr : 0 < long2int (PyLong_AsLong o) <;>
      simp [is_NLOS, hp, available, hs, hc, callObject, hargs, he, hr, State.emit]

/-- The fail-open rule within the range of `int`: an integer result `n` of
`check_sat` with `INT_MIN <= n <= INT_MAX` makes `is_NLOS` return `n` when
`n > 0` and `0` when `n <= 0`; a result that converts to no integer gives `0`. -/
theorem is_NLOS_in_int_range (eng : Engine) (id : String) (week gpst : Int) (st : State)
    (f : PyFunc) (hp : st.pFunc_checksat = some f) (hc : f.callable = true)
    (hs : stale st.log Global.pFunc_checksat = false) (o : PyObject)
    (he : eng (callLog Global.pFunc_checksat 3 st) Global.pFunc_checksat
      (args3 id week gpst) = some o) :
    (o.index = none → ∃ st1, is_NLOS eng id week gpst st = .ok (0, st1)) ∧
    (∀ n, o.index = some n → INT_MIN ≤ n → n ≤ INT_MAX →
      ∃ st1, is_NLOS eng id week gpst st = .ok (if 0 < n then n else 0, st1)) := by
  obtain ⟨st1, h1⟩ := is_NLOS_value eng id week gpst st f hp hc hs
  rw [he] at h1
  dsimp only at h1
  constructor
  · intro hn
    rw [PyLong_AsLong_of_no_index o hn] at h1
    exact ⟨st1, h1⟩
  · intro n hn h2 h3
    rw [PyLong_AsLong_of_int_range o n hn h2 h3] at h1
    exact ⟨st1, h1⟩

/-! ## C3: the coefficient -/

/-- The test `1.0 > 0` holds. -/
theorem one_gtZero : CDouble.one.gtZero = true := by
  simp [CDouble.one, CDouble.gtZero]

/-- The test `-1.0 > 0` fails. -/
theorem negOne_gtZero : CDouble.negOne.gtZero = false := by
  simp [CDouble.negOne, CDouble.gtZero]

/-- C3: from every state in which the `get_val` handle, if there is one, is
live, and for every behaviour of the engine, `get_coff` returns a value: `1.0`
when the entry point is unavailable, else the coefficient the specification
words from the answer of the engine (the value `v` when the call succeeded with
`v > 0`, else `1.0`); the value returned is always `> 0`. -/
theorem get_coff_returns_positive (eng : Engine) (id : String) (week gpst : Int) (st : State)
    (h : st.pFunc_getval ≠ none → stale st.log Global.pFunc_getval = false) :
    ∃ d st1, get_coff eng id week gpst st = .ok (d, st1) ∧ d.gtZero = true ∧
      d = if unavailable Global.pFunc_getval st.pFunc_getval st.log then CDouble.one
          else coefficient (eng (callLog Global.pFunc_getval 3 st) Global.pFunc_getval
            (args3 id week gpst)) := by
  cases hp : st.pFunc_getval with
  | none => simp [get_coff, hp, available, unavailable, one_gtZero]
  | some f =>
    have hs : stale st.log Global.pFunc_getval = false := h (by simp [hp])
    cases hc : f.callable with
    | false => simp [get_coff, hp, available, unavailable, hs, hc, one_gtZero]
    | true =>
      have hargs : (args3 id week gpst).length = 3 := rfl
      cases he : eng (callLog Global.pFunc_getval 3 st) Global.pFunc_getval
          (args3 id week gpst) with
      | none =>
        simp only [callLog] at he
        simp [get_coff, hp, available, unavailable, hs, hc, callObject, hargs, callLog, he,
          coefficient, one_gtZero]
      | some o =>
        simp only [callLog] at he
        cases hf : o.float with
        | none =>
          simp [get_coff, hp, available, unavailable, hs, hc, callObject, hargs, callLog, he,
            coefficient, one_gtZero, PyFloat_AsDouble, hf, negOne_gtZero]
        | some v =>
          cases hv : v.gtZero with
          | false =>
            simp [get_coff, hp, available, unavailable, hs, hc, callObject, hargs, callLog, he,
              coefficient, one_gtZero, PyFloat_AsDouble, hf, hv]
          | true =>
            cases hn : v.neOne <;>
            simp [get_coff, hp, available, unavailable, hs, hc, callObject, hargs, callLog, he,
              coefficient, PyFloat_AsDouble, hf, hv, hn]

/-- C3 (witness): `get_val` returns `2.0` in a ready state. -/
theorem get_coff_returns_positive_witness :
    (readyState.pFunc_getval ≠ none → stale readyState.log Global.pFunc_getval = false) ∧
    ∃ d st1, get_coff (constEngine (PyObject.ofDouble (CDouble.finite 2))) "G01" 2200 345600
        readyState = .ok (d, st1) ∧ d.gtZero = true ∧
      d = if unavailable Global.pFunc_getval readyState.pFunc_getval readyState.log then
            CDouble.one
          else coefficient (constEngine (PyObject.ofDouble (CDouble.finite 2))
            (callLog Global.pFunc_getval 3 readyState) Global.pFunc_getval
            (args3 "G01" 2200 345600)) :=
  ⟨fun _ => rfl, get_coff_returns_positive (constEngine (PyObject.ofDouble (CDouble.finite 2)))
    "G01" 2200 345600 readyState (fun _ => rfl)⟩

/-! ## C4: the integer result of `check_sat` -/

/-- C4 (the code at the failing input): `check_sat` returns the positive integer
`4294967296 = 2^32`. Stored in `int result` it is `0`, so `is_NLOS` returns `0`
(false) although the call succeeded with a positive integer. -/
theorem is_NLOS_false_on_large_positive :
    long2int (PyLong_AsLong (PyObject.int 4294967296)) = 0 ∧
    (is_NLOS (constEngine (PyObject.int 4294967296)) "G01" 2200 345600 readyState).map
      Prod.fst = .ok 0 :=
  ⟨rfl, rfl⟩

/-! ## C5: the result of `store_info` -/

/-- C5 (counterexample): the `store_info` entry point is available and returns
`0`; `store_info` returns `-1`, which read as a boolean is true, not false. -/
theorem store_info_true_on_zero_result :
    (store_info weekSplit (constEngine (PyObject.int 0)) ⟨1000000, CDouble.finite 0⟩ "k" "v"
      readyState).map (fun r => (r.1, truthy r.1)) = .ok (-1, true) :=
  rfl

/-- C5 (amended): from every state in which the `store_info` handle, if there is
one, is live, `store_info` returns either `-1` or a positive value. It returns
a positive value only if the entry point was available, was called once and
handed back an object, and the value is that object converted to a C `int`;
for an integer result `n` in the range of `int` that is `n` itself when
`n > 0`. It returns `-1` (which is not zero) when the entry point is
unavailable, and then no call is made, when the call fails, when the result
converts to no integer, and when the result is an integer `n <= 0` in the range
of `int`. -/
theorem store_info_returns (time2gpst : gtime_t → CDouble × Int) (eng : Engine)
    (gtime : gtime_t) (key val : String) (st : State)
    (h : st.pFunc_storeinfo ≠ none → stale st.log Global.pFunc_storeinfo = false) :
    ∃ r st1, store_info time2gpst eng gtime key val st = .ok (r, st1) ∧
      (r = -1 ∨ 0 < r) ∧
      (0 < r → unavailable Global.pFunc_storeinfo st.pFunc_storeinfo st.log = false ∧
        engineCalls st1.log = engineCalls st.log + 1 ∧
        ∃ o, eng (callLog Global.pFunc_storeinfo 4 st) Global.pFunc_storeinfo
            (args4 (time2gpst gtime).2 (time2gpst gtime).1 key val) = some o ∧
          r = long2int (PyLong_AsLong o)) ∧
      (unavailable Global.pFunc_storeinfo st.pFunc_storeinfo st.log = true →
        r = -1 ∧ engineCalls st1.log = engineCalls st.log) ∧
      (unavailable Global.pFunc_storeinfo st.pFunc_storeinfo st.log = false →
        match eng (callLog Global.pFunc_storeinfo 4 st) Global.pFunc_storeinfo
            (args4 (time2gpst gtime).2 (time2gpst gtime).1 key val) with
        | none => r = -1
        | some o =>
          match o.index with
          | none => r = -1
          | some n => INT_MIN ≤ n → n ≤ INT_MAX → r = if 0 < n then n else -1) := by
  cases hp : st.pFunc_storeinfo with
  | none =>
    have hrun : ∃ st1, store_info time2gpst eng gtime key val st = .ok (-1, st1) ∧
        engineCalls st1.log = engineCalls st.log := by
      simp [store_info, hp, available, State.emit, engineCalls, Event.isCall]
    obtain ⟨st1, h1, h2⟩ := hrun
    refine ⟨-1, st1, h1, Or.inl rfl, ?_, ?_, ?_⟩
    · intro h0
      omega
    · intro _
      exact ⟨rfl, h2⟩
    · intro hu
      simp [unavailable] at hu
  | some f =>
    have hs : stale st.log Global.pFunc_storeinfo = false := h (by simp [hp])
    cases hc : f.callable with
    | false =>
      have hrun : ∃ st1, store_info time2gpst eng gtime key val st = .ok (-1, st1) ∧
          engineCalls st1.log = engineCalls st.log := by
        simp [store_info, hp, available, hs, hc, State.emit, engineCalls, Event.isCall]
      obtain ⟨st1, h1, h2⟩ := hrun
      refine ⟨-1, st1, h1, Or.inl rfl, ?_, ?_, ?_⟩
      · intro h0
        omega
      · intro _
        exact ⟨rfl, h2⟩
      · intro hu
        simp [unavailable, hc, hs] at hu
    | true =>
      have hargs : (args4 (time2gpst gtime).2 (time2gpst gtime).1 key val).length = 4 := rfl
      have hu : unavailable Global.pFunc_storeinfo (some f) st.log = false := by
        simp [unavailable, hc]
      cases he : eng (callLog Global.pFunc_storeinfo 4 st) Global.pFunc_storeinfo
          (args4 (time2gpst gtime).2 (time2gpst gtime).1 key val) with
      | none =>
        have he1 := he
        simp [callLog, State.emit] at he1
        have hrun : ∃ st1, store_info time2gpst eng gtime key val st = .ok (-1, st1) := by
          simp [store_info, hp, available, hs, hc, callObject, hargs, he1, State.emit]
        obtain ⟨st1, h1⟩ := hrun
        refine ⟨-1, st1, h1, Or.inl rfl, ?_, ?_, ?_⟩
        · intro h0
          omega
        · intro hu1
          rw [hu] at hu1
          cases hu1
        · intro _
          trivial
      | some o =>
        have he1 := he
        simp [callLog, State.emit] at he1
        by_cases hr : 0 < long2int (PyLong_AsLong o)
        · have hrun : ∃ st1, store_info time2gpst eng gtime key val st =
                .ok (long2int (PyLong_AsLong o), st1) ∧
              engineCalls st1.log = engineCalls st.log + 1 := by
            simp [store_info, hp, available, hs, hc, callObject, hargs, he1, hr, State.emit,
              engineCalls, Event.isCall, List.countP_append]
          obtain ⟨st1, h1, h2⟩ := hrun
          refine ⟨_, st1, h1, Or.inr hr, ?_, ?_, ?_⟩
          · intro _
            exact ⟨hu, h2, o, rfl, rfl⟩
          · intro hu1
            rw [hu] at hu1
            cases hu1
          · intro _
            dsimp only
            cases hi : o.index with
            | none =>
              rw [PyLong_AsLong_of_no_index o hi] at hr
              omega
            | some n =>
              dsimp only
              intro hn1 hn2
              have hv := PyLong_AsLong_of_int_range o n hi hn1 hn2
              rw [hv] at hr
              simp [hv, hr]
        · have hrun : ∃ st1, store_info time2gpst eng gtime key val st = .ok (-1, st1) := by
            simp [store_info, hp, available, hs, hc, callObject, hargs, he1, hr, State.emit]
          obtain ⟨st1, h1⟩ := hrun
          refine ⟨-1, st1, h1, Or.inl rfl, ?_, ?_, ?_⟩
          · intro h0
            omega
          · intro hu1
            rw [hu] at hu1
            cases hu1
          · intro _
            dsimp only
            cases hi : o.index with
            | none => exact rfl
            | some n =>
              dsimp only
              intro hn1 hn2
              have hv := PyLong_AsLong_of_int_range o n hi hn1 hn2
              rw [hv] at hr
              simp [hr]

/-- C5 (witness): the engine acknowledges with `3` in a ready state. -/
theorem store_info_returns_witness :
    (readyState.pFunc_storeinfo ≠ none →
      stale readyState.log Global.pFunc_storeinfo = false) ∧
    ∃ r st1, store_info weekSplit (constEngine (PyObject.int 3)) ⟨1000000, CDouble.finite 0⟩
        "k" "v" readyState = .ok (r, st1) ∧
      (r = -1 ∨ 0 < r) ∧
      (0 < r → unavailable Global.pFunc_storeinfo readyState.pFunc_storeinfo readyState.log
          = false ∧
        engineCalls st1.log = engineCalls readyState.log + 1 ∧
        ∃ o, constEngine (PyObject.int 3) (callLog Global.pFunc_storeinfo 4 readyState)
            Global.pFunc_storeinfo
            (args4 (weekSplit ⟨1000000, CDouble.finite 0⟩).2
              (weekSplit ⟨1000000, CDouble.finite 0⟩).1 "k" "v") = some o ∧
          r = long2int (PyLong_AsLong o)) ∧
      (unavailable Global.pFunc_storeinfo readyState.pFunc_storeinfo readyState.log = true →
        r = -1 ∧ engineCalls st1.log = engineCalls readyState.log) ∧
      (unavailable Global.pFunc_storeinfo readyState.pFunc_storeinfo readyState.log = false →
        match constEngine (PyObject.int 3) (callLog Global.pFunc_storeinfo 4 readyState)
            Global.pFunc_storeinfo
            (args4 (weekSplit ⟨1000000, CDouble.finite 0⟩).2
              (weekSplit ⟨1000000, CDouble.finite 0⟩).1 "k" "v") with
        | none => r = -1
        | some o =>
          match o.index with
          | none => r = -1
          | some n => INT_MIN ≤ n → n ≤ INT_MAX → r = if 0 < n then n else -1) :=
  ⟨fun _ => rfl, store_info_returns weekSplit (constEngine (PyObject.int 3))
    ⟨1000000, CDouble.finite 0⟩ "k" "v" readyState (fun _ => rfl)⟩

/-! ## C6: release of the call results -/

/-- C6 (the code at the failing inputs): in a ready state the engine hands back
a result object whose value is not positive (`0` for `check_sat`, `0.0` for
`get_val`) or converts to no integer (for `store_info`). Each of `is_NLOS`,
`get_coff` and `store_info` returns with one result acquired and none
released; only `is_VS` releases its result. -/
theorem result_leaked_on_non_positive :
    (is_NLOS (constEngine (PyObject.int 0)) "G01" 2200 345600 readyState).map
      (fun r => (r.1, acquired r.2.log, released r.2.log)) = .ok (0, 1, 0) ∧
    (get_coff (constEngine (PyObject.ofDouble (CDouble.finite 0))) "G01" 2200 345600
      readyState).map
      (fun r => (r.1, acquired r.2.log, released r.2.log)) = .ok (CDouble.one, 1, 0) ∧
    (store_info weekSplit (constEngine PyObject.other) ⟨1000000, CDouble.finite 0⟩ "k" "v"
      readyState).map
      (fun r => (r.1, acquired r.2.log, released r.2.log)) = .ok (-1, 1, 0) ∧
    (is_VS (constEngine (PyObject.int 0)) "G01" 2200 345600 readyState).map
      (fun r => (r.1, acquired r.2.log, released r.2.log)) = .ok (0, 1, 1) :=
  ⟨rfl, rfl, rfl, rfl⟩

/-! ## C7: the end of `main` without `save_info` -/

/-- C7 (the code at the failing input): the module has `check_sat`, `check_vs`,
`store_info` and `get_val` but no `save_info`. The import succeeds and leaves
the `pFunc_save` slot null; the end of `main` then applies `Py_DECREF` to that
null handle, which is undefined behaviour, and does not reach `Py_Finalize`. -/
theorem finalizer_releases_null_save_handle :
    (py_init (some noSaveModule) State.start).map
      (fun s => (s.pFunc_checksat, s.pFunc_save)) = .ok (some ⟨true⟩, none) ∧
    (py_init (some noSaveModule) State.start).bind (save_step failingEngine) =
      py_init (some noSaveModule) State.start ∧
    (py_init (some noSaveModule) State.start).bind (finalizer failingEngine) =
      .error Fault.nullDereference :=
  ⟨rfl, rfl, rfl⟩

/-! ## C10: the environment overlay -/

/-- C10: for every process environment (and whatever `atoi` and `atof` compute),
after lines 489-514 each raw string is the variable of its name, each of the
four integer values is `0` when its variable is unset and `atoi` of its string
when set, and `k_val` is `1.0` when `K_COFF` is unset and `atof` of its string
when set: every value is a function of its own variable alone. -/
theorem load_env_fields (getenv : String → Option String) (atoi : String → Int)
    (atof : String → CDouble) :
    (load_env getenv atoi atof lzw_config).nlos_env = getenv "NLOS_ENV" ∧
    (load_env getenv atoi atof lzw_config).varr_env = getenv "VARR_ENV" ∧
    (load_env getenv atoi atof lzw_config).vs_env = getenv "VS" ∧
    (load_env getenv atoi atof lzw_config).k_env = getenv "K_COFF" ∧
    (load_env getenv atoi atof lzw_config).ar_env = getenv "AR_MODES" ∧
    (load_env getenv atoi atof lzw_config).nlos_val =
      (match getenv "NLOS_ENV" with | none => 0 | some s => atoi s) ∧
    (load_env getenv atoi atof lzw_config).varr_val =
      (match getenv "VARR_ENV" with | none => 0 | some s => atoi s) ∧
    (load_env getenv atoi atof lzw_config).vs_val =
      (match getenv "VS" with | none => 0 | some s => atoi s) ∧
    (load_env getenv atoi atof lzw_config).k_val =
      (match getenv "K_COFF" with | none => CDouble.one | some s => atof s) ∧
    (load_env getenv atoi atof lzw_config).ar_val =
      (match getenv "AR_MODES" with | none => 0 | some s => atoi s) := by
  delta load_env
  generalize getenv "NLOS_ENV" = a
  generalize getenv "VARR_ENV" = b
  generalize getenv "VS" = c
  generalize getenv "K_COFF" = d
  generalize getenv "AR_MODES" = e
  cases a <;> cases b <;> cases c <;> cases d <;> cases e <;>
    exact ⟨rfl, rfl, rfl, rfl, rfl, rfl, rfl, rfl, rfl, rfl⟩

/-! ## Lemmas on stale handles -/

/-- A handle is stale exactly when the log has a `Py_Finalize` or its release. -/
theorem stale_eq_true_iff (log : List Event) (g : Global) :
    stale log g = true ↔ Event.Py_Finalize ∈ log ∨ Event.Py_DECREF (Ref.global g) ∈ log := by
  simp [stale]

/-- Staleness over a log in two parts. -/
theorem stale_append (l1 l2 : List Event) (g : Global) :
    stale (l1 ++ l2) g = (stale l1 g || stale l2 g) := by
  rw [Bool.eq_iff_iff]
  simp only [Bool.or_eq_true, stale_eq_true_iff, List.mem_append]
  tauto

/-- After `Py_Finalize` every handle is stale. -/
theorem stale_of_finalized (log : List Event) (g : Global) (h : Event.Py_Finalize ∈ log) :
    stale log g = true :=
  (stale_eq_true_iff log g).2 (Or.inl h)

/-! ## The facade leaves the handles alone -/

/-- With a live (or null) `check_sat` slot `is_NLOS` returns; it leaves the globals as
they are and adds neither a release of a global nor a finalisation to the log. -/
theorem is_NLOS_quiet (eng : Engine) (id : String) (week gpst : Int) (st : State)
    (h : st.pFunc_checksat ≠ none → stale st.log Global.pFunc_checksat = false) :
    ∃ r t, is_NLOS eng id week gpst st = .ok (r, { st with log := st.log ++ t }) ∧
      ∀ g, stale t g = false := by
  have hargs : (args3 id week gpst).length = 3 := rfl
  cases hp : st.pFunc_checksat with
  | none =>
    refine ⟨0, [Event.trace 2 "[lzw] pFunc_checksat failed"], ?_, ?_⟩
    · simp [is_NLOS, hp, available, State.emit]
    · intro g
      simp [stale]
  | some f =>
    have hs : stale st.log Global.pFunc_checksat = false := h (by simp [hp])
    cases hc : f.callable with
    | false =>
      refine ⟨0, [Event.PyCallable_Check Global.pFunc_checksat,
        Event.trace 2 "[lzw] pFunc_checksat failed"], ?_, ?_⟩
      · simp [is_NLOS, hp, available, hs, hc, State.emit]
      · intro g
        simp [stale]
    | true =>
      cases he : eng (callLog Global.pFunc_checksat 3 st) Global.pFunc_checksat
          (args3 id week gpst) with
      | none =>
        simp [callLog, State.emit] at he
        refine ⟨0, [Event.PyCallable_Check Global.pFunc_checksat, Event.PyTuple_New 3,
          Event.PyObject_CallObject Global.pFunc_checksat (args3 id week gpst) none,
          Event.Py_DECREF Ref.pArgs, Event.trace 2 "[lzw] is_NLOS pValue failed"], ?_, ?_⟩
        · simp [is_NLOS, hp, available, hs, hc, callObject, hargs, he, State.emit]
        · intro g
          simp [stale]
      | some o =>
        simp [callLog, State.emit] at he
        by_cases hr : 0 < long2int (PyLong_AsLong o)
        · refine ⟨long2int (PyLong_AsLong o), [Event.PyCallable_Check Global.pFunc_checksat,
            Event.PyTuple_New 3,
            Event.PyObject_CallObject Global.pFunc_checksat (args3 id week gpst) (some o),
            Event.Py_DECREF Ref.pArgs, Event.Py_DECREF Ref.pValue,
            Event.trace 4 "[lzw] is_NLOS result=%d"], ?_, ?_⟩
          · simp [is_NLOS, hp, available, hs, hc, callObject, hargs, he, hr, State.emit]
          · intro g
            simp [stale]
        · refine ⟨0, [Event.PyCallable_Check Global.pFunc_checksat, Event.PyTuple_New 3,
            Event.PyObject_CallObject Global.pFunc_checksat (args3 id week gpst) (some o),
            Event.Py_DECREF Ref.pArgs], ?_, ?_⟩
          · simp [is_NLOS, hp, available, hs, hc, callObject, hargs, he, hr, State.emit]
          · intro g
            simp [stale]

/-- With a live (or null) `check_vs` slot `is_VS` returns; it leaves the globals as they
are and adds neither a release of a global nor a finalisation to the log. -/
theorem is_VS_quiet (eng : Engine) (id : String) (week gpst : Int) (st : State)
    (h : st.pFunc_checkvs ≠ none → stale st.log Global.pFunc_checkvs = false) :
    ∃ r t, is_VS eng id week gpst st = .ok (r, { st with log := st.log ++ t }) ∧
      ∀ g, stale t g = false := by
  have hargs : (args3 id week gpst).length = 3 := rfl
  have hst : stale (st.log ++ [Event.trace 5 "is_VS(%s, %d, %d)"]) Global.pFunc_checkvs
      = stale st.log Global.pFunc_checkvs := by
    simp [stale]
  cases hp : st.pFunc_checkvs with
  | none =>
    refine ⟨0, [Event.trace 5 "is_VS(%s, %d, %d)",
      Event.trace 2 "[lzw] pFunc_checkvs failed"], ?_, ?_⟩
    · simp [is_VS, hp, available, State.emit]
    · intro g
      simp [stale]
  | some f =>
    have hs : stale st.log Global.pFunc_checkvs = false := h (by simp [hp])
    cases hc : f.callable with
    | false =>
      refine ⟨0, [Event.trace 5 "is_VS(%s, %d, %d)",
        Event.PyCallable_Check Global.pFunc_checkvs,
        Event.trace 2 "[lzw] pFunc_checkvs failed"], ?_, ?_⟩
      · simp [is_VS, hp, available, hs, hst, hc, State.emit]
      · intro g
        simp [stale]
    | true =>
      cases he : eng (st.log ++ [Event.trace 5 "is_VS(%s, %d, %d)",
          Event.PyCallable_Check Global.pFunc_checkvs, Event.PyTuple_New 3])
          Global.pFunc_checkvs (args3 id week gpst) with
      | none =>
        refine ⟨0, [Event.trace 5 "is_VS(%s, %d, %d)",
          Event.PyCallable_Check Global.pFunc_checkvs, Event.PyTuple_New 3,
          Event.PyObject_CallObject Global.pFunc_checkvs (args3 id week gpst) none,
          Event.Py_DECREF Ref.pArgs, Event.trace 2 "[lzw] is_VS pValue failed"], ?_, ?_⟩
        · simp [is_VS, hp, available, hs, hst, hc, callObject, hargs, he, State.emit]
        · intro g
          simp [stale]
      | some o =>
        by_cases hr : 0 < long2int (PyLong_AsLong o)
        · refine ⟨1, [Event.trace 5 "is_VS(%s, %d, %d)",
            Event.PyCallable_Check Global.pFunc_checkvs, Event.PyTuple_New 3,
            Event.PyObject_CallObject Global.pFunc_checkvs (args3 id week gpst) (some o),
            Event.Py_DECREF Ref.pArgs, Event.Py_DECREF Ref.pValue,
            Event.trace 5 "[lzw] is_vs result=%d"], ?_, ?_⟩
          · simp [is_VS, hp, available, hs, hst, hc, callObject, hargs, he, hr, State.emit]
          · intro g
            simp [stale]
        · refine ⟨0, [Event.trace 5 "is_VS(%s, %d, %d)",
            Event.PyCallable_Check Global.pFunc_checkvs, Event.PyTuple_New 3,
            Event.PyObject_CallObject Global.pFunc_checkvs (args3 id week gpst) (some o),
            Event.Py_DECREF Ref.pArgs, Event.Py_DECREF Ref.pValue,
            Event.trace 5 "[lzw] is_vs result=%d"], ?_, ?_⟩
          · simp [is_VS, hp, available, hs, hst, hc, callObject, hargs, he, hr, State.emit]
          · intro g
            simp [stale]

/-- With a live (or null) `get_val` slot `get_coff` returns; it leaves the globals as
they are and adds neither a release of a global nor a finalisation to the log. -/
theorem get_coff_quiet (eng : Engine) (id : String) (week gpst : Int) (st : State)
    (h : st.pFunc_getval ≠ none → stale st.log Global.pFunc_getval = false) :
    ∃ r t, get_coff eng id week gpst st = .ok (r, { st with log := st.log ++ t }) ∧
      ∀ g, stale t g = false := by
  have hargs : (args3 id week gpst).length = 3 := rfl
  cases hp : st.pFunc_getval with
  | none =>
    refine ⟨CDouble.one, [Event.trace 2 "[lzw] pFunc_getval failed"], ?_, ?_⟩
    · simp [get_coff, hp, available, State.emit]
    · intro g
      simp [stale]
  | some f =>
    have hs : stale st.log Global.pFunc_getval = false := h (by simp [hp])
    cases hc : f.callable with
    | false =>
      refine ⟨CDouble.one, [Event.PyCallable_Check Global.pFunc_getval,
        Event.trace 2 "[lzw] pFunc_getval failed"], ?_, ?_⟩
      · simp [get_coff, hp, available, hs, hc, State.emit]
      · intro g
        simp [stale]
    | true =>
      cases he : eng (st.log ++ [Event.PyCallable_Check Global.pFunc_getval,
          Event.PyTuple_New 3]) Global.pFunc_getval (args3 id week gpst) with
      | none =>
        refine ⟨CDouble.one, [Event.PyCallable_Check Global.pFunc_getval, Event.PyTuple_New 3,
          Event.PyObject_CallObject Global.pFunc_getval (args3 id week gpst) none,
          Event.Py_DECREF Ref.pArgs, Event.trace 2 "[lzw] get_coff pValue failed"], ?_, ?_⟩
        · simp [get_coff, hp, available, hs, hc, callObject, hargs, he, State.emit]
        · intro g
          simp [stale]
      | some o =>
        cases hv : (PyFloat_AsDouble o).gtZero with
        | false =>
          refine ⟨CDouble.one, [Event.PyCallable_Check Global.pFunc_getval,
            Event.PyTuple_New 3,
            Event.PyObject_CallObject Global.pFunc_getval (args3 id week gpst) (some o),
            Event.Py_DECREF Ref.pArgs], ?_, ?_⟩
          · simp [get_coff, hp, available, hs, hc, callObject, hargs, he, hv, State.emit]
          · intro g
            simp [stale]
        | true =>
          cases hn : (PyFloat_AsDouble o).neOne with
          | false =>
            refine ⟨PyFloat_AsDouble o, [Event.PyCallable_Check Global.pFunc_getval,
              Event.PyTuple_New 3,
              Event.PyObject_CallObject Global.pFunc_getval (args3 id week gpst) (some o),
              Event.Py_DECREF Ref.pArgs, Event.Py_DECREF Ref.pValue,
              Event.trace 4 "[lzw] get_coff result=%f LOS"], ?_, ?_⟩
            · simp [get_coff, hp, available, hs, hc, callObject, hargs, he, hv, hn, State.emit]
            · intro g
              simp [stale]
          | true =>
            refine ⟨PyFloat_AsDouble o, [Event.PyCallable_Check Global.pFunc_getval,
              Event.PyTuple_New 3,
              Event.PyObject_CallObject Global.pFunc_getval (args3 id week gpst) (some o),
              Event.Py_DECREF Ref.pArgs, Event.Py_DECREF Ref.pValue,
              Event.trace 4 "[lzw] get_coff result=%f NLOS"], ?_, ?_⟩
            · simp [get_coff, hp, available, hs, hc, callObject, hargs, he, hv, hn, State.emit]
            · intro g
              simp [stale]

/-- With a live (or null) `store_info` slot `store_info` returns; it leaves the globals
as they are and adds neither a release of a global nor a finalisation to the log. -/
theorem store_info_quiet (time2gpst : gtime_t → CDouble × Int) (eng : Engine)
    (gtime : gtime_t) (key val : String) (st : State)
    (h : st.pFunc_storeinfo ≠ none → stale st.log Global.pFunc_storeinfo = false) :
    ∃ r t, store_info time2gpst eng gtime key val st =
        .ok (r, { st with log := st.log ++ t }) ∧
      ∀ g, stale t g = false := by
  have hargs : (args4 (time2gpst gtime).2 (time2gpst gtime).1 key val).length = 4 := rfl
  cases hp : st.pFunc_storeinfo with
  | none =>
    refine ⟨-1, [Event.trace 2 "[lzw] pFunc_storeinfo failed"], ?_, ?_⟩
    · simp [store_info, hp, available, State.emit]
    · intro g
      simp [stale]
  | some f =>
    have hs : stale st.log Global.pFunc_storeinfo = false := h (by simp [hp])
    cases hc : f.callable with
    | false =>
      refine ⟨-1, [Event.PyCallable_Check Global.pFunc_storeinfo,
        Event.trace 2 "[lzw] pFunc_storeinfo failed"], ?_, ?_⟩
      · simp [store_info, hp, available, hs, hc, State.emit]
      · intro g
        simp [stale]
    | true =>
      cases he : eng (st.log ++ [Event.PyCallable_Check Global.pFunc_storeinfo,
          Event.PyTuple_New 4]) Global.pFunc_storeinfo
          (args4 (time2gpst gtime).2 (time2gpst gtime).1 key val) with
      | none =>
        refine ⟨-1, [Event.PyCallable_Check Global.pFunc_storeinfo, Event.PyTuple_New 4,
          Event.PyObject_CallObject Global.pFunc_storeinfo
            (args4 (time2gpst gtime).2 (time2gpst gtime).1 key val) none,
          Event.Py_DECREF Ref.pArgs, Event.trace 2 "[lzw] store_info pValue failed"], ?_, ?_⟩
        · simp [store_info, hp, available, hs, hc, callObject, hargs, he, State.emit]
        · intro g
          simp [stale]
      | some o =>
        by_cases hr : 0 < long2int (PyLong_AsLong o)
        · refine ⟨long2int (PyLong_AsLong o), [Event.PyCallable_Check Global.pFunc_storeinfo,
            Event.PyTuple_New 4,
            Event.PyObject_CallObject Global.pFunc_storeinfo
              (args4 (time2gpst gtime).2 (time2gpst gtime).1 key val) (some o),
            Event.Py_DECREF Ref.pArgs, Event.Py_DECREF Ref.pValue,
            Event.trace 5 "[lzw] store_info result=%d"], ?_, ?_⟩
          · simp [store_info, hp, available, hs, hc, callObject, hargs, he, hr, State.emit]
          · intro g
            simp [stale]
        · refine ⟨-1, [Event.PyCallable_Check Global.pFunc_storeinfo, Event.PyTuple_New 4,
            Event.PyObject_CallObject Global.pFunc_storeinfo
              (args4 (time2gpst gtime).2 (time2gpst gtime).1 key val) (some o),
            Event.Py_DECREF Ref.pArgs], ?_, ?_⟩
          · simp [store_info, hp, available, hs, hc, callObject, hargs, he, hr, State.emit]
          · intro g
            simp [stale]

/-- Every facade call made while no entry-point handle is stale returns, leaves the
globals as they are and keeps the handles live. -/
theorem run_quiet (time2gpst : gtime_t → CDouble × Int) (eng : Engine) (rq : Request)
    (st : State) (h : ∀ g, g.isFunc = true → stale st.log g = false) :
    ∃ r t, rq.run time2gpst eng st = .ok (r, { st with log := st.log ++ t }) ∧
      ∀ g, stale t g = false := by
  cases rq with
  | get_coff id week gpst =>
    obtain ⟨r, t, h1, h2⟩ := get_coff_quiet eng id week gpst st (fun _ => h _ rfl)
    exact ⟨Reply.double r, t, by simp [Request.run, h1, Except.map], h2⟩
  | is_NLOS id week gpst =>
    obtain ⟨r, t, h1, h2⟩ := is_NLOS_quiet eng id week gpst st (fun _ => h _ rfl)
    exact ⟨Reply.int r, t, by simp [Request.run, h1, Except.map], h2⟩
  | is_VS id week gpst =>
    obtain ⟨r, t, h1, h2⟩ := is_VS_quiet eng id week gpst st (fun _ => h _ rfl)
    exact ⟨Reply.int r, t, by simp [Request.run, h1, Except.map], h2⟩
  | store_info gtime key val =>
    obtain ⟨r, t, h1, h2⟩ := store_info_quiet time2gpst eng gtime key val st (fun _ => h _ rfl)
    exact ⟨Reply.int r, t, by simp [Request.run, h1, Except.map], h2⟩

/-- Every sequence of facade calls made while no entry-point handle is stale runs to its
end, leaves the globals as they are and keeps the handles live. -/
theorem postpos_quiet (time2gpst : gtime_t → CDouble × Int) (eng : Engine)
    (reqs : List Request) :
    ∀ st : State, (∀ g, g.isFunc = true → stale st.log g = false) →
      ∃ t, postpos time2gpst eng reqs st = .ok { st with log := st.log ++ t } ∧
        ∀ g, stale t g = false := by
  induction reqs with
  | nil =>
    intro st _
    exact ⟨[], by simp [postpos], fun g => by simp [stale]⟩
  | cons rq rest ih =>
    intro st h
    obtain ⟨r, t1, h1, h2⟩ := run_quiet time2gpst eng rq st h
    have h3 : ∀ g, g.isFunc = true →
        stale ({ st with log := st.log ++ t1 } : State).log g = false := by
      intro g hg
      simp [stale_append, h g hg, h2 g]
    obtain ⟨t2, h4, h5⟩ := ih _ h3
    refine ⟨t1 ++ t2, ?_, ?_⟩
    · simp [postpos, h1, h4, List.append_assoc]
    · intro g
      simp [stale_append, h2 g, h5 g]

/-! ## Import, save step and teardown -/

/-- An availability report on a live handle completes and only adds the check, a trace
line and possibly `PyErr_Print` to the log. -/
theorem report_quiet (g : Global) (p : Option PyFunc) (name : String) (st : State)
    (h : stale st.log g = false) :
    ∃ t, report g p name st = .ok { st with log := st.log ++ t } ∧
      ∀ g1, stale t g1 = false := by
  cases p with
  | none =>
    refine ⟨[Event.trace 1 (name ++ " failed"), Event.PyErr_Print], ?_, ?_⟩
    · simp [report, available, State.emit]
    · intro g1
      simp [stale]
  | some f =>
    cases hc : f.callable with
    | false =>
      refine ⟨[Event.PyCallable_Check g, Event.trace 1 (name ++ " failed"),
        Event.PyErr_Print], ?_, ?_⟩
      · simp [report, available, h, hc, State.emit]
      · intro g1
        simp [stale]
    | true =>
      refine ⟨[Event.PyCallable_Check g, Event.trace 1 (name ++ " succeed")], ?_, ?_⟩
      · simp [report, available, h, hc, State.emit]
      · intro g1
        simp [stale]

/-- A log in which a handle is not stale has no release of it. -/
theorem count_release_of_not_stale (t : List Event) (g : Global) (h : stale t g = false) :
    t.count (Event.Py_DECREF (Ref.global g)) = 0 := by
  rw [List.count_eq_zero]
  intro hm
  have := (stale_eq_true_iff t g).2 (Or.inr hm)
  rw [h] at this
  cases this

/-- The import releases no entry-point handle and does not finalise the runtime. -/
theorem importLog_not_stale (md : Module) (g : Global) (hg : g.isFunc = true) :
    stale (importLog md) g = false := by
  cases g <;> simp [Global.isFunc] at hg <;> simp [stale, importLog]

/-- The import releases the module handle exactly once. -/
theorem importLog_count (md : Module) :
    (importLog md).count (Event.Py_DECREF (Ref.global Global.pModule)) = 1 := by
  simp [importLog, List.count_cons]

/-- When the module is found, lines 411-487 complete from the program start: the five
globals hold the attributes of the module, and the log is `importLog` followed by the
five reports. -/
theorem py_init_ok (md : Module) :
    ∃ t, py_init (some md) State.start =
        .ok ⟨md.check_sat, md.store_info, md.save_info, md.get_val, md.check_vs, some md,
          importLog md ++ t⟩ ∧
      ∀ g, stale t g = false := by
  have h0 : py_init (some md) State.start = (do
      let b1 ← report Global.pFunc_checksat md.check_sat "pFunc_checksat"
        ⟨md.check_sat, md.store_info, md.save_info, md.get_val, md.check_vs, some md,
          importLog md⟩
      let b2 ← report Global.pFunc_checkvs b1.pFunc_checkvs "pFunc_checkvs" b1
      let b3 ← report Global.pFunc_storeinfo b2.pFunc_storeinfo "pFunc_storeinfo" b2
      let b4 ← report Global.pFunc_save b3.pFunc_save "pFunc_save" b3
      report Global.pFunc_getval b4.pFunc_getval "pFunc_getval" b4) := rfl
  obtain ⟨t1, e1, q1⟩ := report_quiet Global.pFunc_checksat md.check_sat "pFunc_checksat"
    ⟨md.check_sat, md.store_info, md.save_info, md.get_val, md.check_vs, some md,
      importLog md⟩ (importLog_not_stale md Global.pFunc_checksat rfl)
  obtain ⟨t2, e2, q2⟩ := report_quiet Global.pFunc_checkvs md.check_vs "pFunc_checkvs"
    ⟨md.check_sat, md.store_info, md.save_info, md.get_val, md.check_vs, some md,
      importLog md ++ t1⟩
    (by simp [stale_append, importLog_not_stale md Global.pFunc_checkvs rfl, q1])
  obtain ⟨t3, e3, q3⟩ := report_quiet Global.pFunc_storeinfo md.store_info "pFunc_storeinfo"
    ⟨md.check_sat, md.store_info, md.save_info, md.get_val, md.check_vs, some md,
      importLog md ++ t1 ++ t2⟩
    (by simp [stale_append, importLog_not_stale md Global.pFunc_storeinfo rfl, q1, q2])
  obtain ⟨t4, e4, q4⟩ := report_quiet Global.pFunc_save md.save_info "pFunc_save"
    ⟨md.check_sat, md.store_info, md.save_info, md.get_val, md.check_vs, some md,
      importLog md ++ t1 ++ t2 ++ t3⟩
    (by simp [stale_append, importLog_not_stale md Global.pFunc_save rfl, q1, q2, q3])
  obtain ⟨t5, e5, q5⟩ := report_quiet Global.pFunc_getval md.get_val "pFunc_getval"
    ⟨md.check_sat, md.store_info, md.save_info, md.get_val, md.check_vs, some md,
      importLog md ++ t1 ++ t2 ++ t3 ++ t4⟩
    (by simp [stale_append, importLog_not_stale md Global.pFunc_getval rfl, q1, q2, q3, q4])
  dsimp only at e1 e2 e3 e4 e5
  refine ⟨t1 ++ t2 ++ t3 ++ t4 ++ t5, ?_, ?_⟩
  · rw [h0, e1]
    simp only [bind, Except.bind]
    rw [e2]
    dsimp only
    rw [e3]
    dsimp only
    rw [e4]
    dsimp only
    rw [e5]
    simp [List.append_assoc]
  · intro g
    simp [stale_append, q1, q2, q3, q4, q5]

/-- The save step on a live (or null) `save_info` slot completes and releases nothing. -/
theorem save_step_quiet (eng : Engine) (st : State)
    (h : stale st.log Global.pFunc_save = false) :
    ∃ t, save_step eng st = .ok { st with log := st.log ++ t } ∧
      ∀ g, stale t g = false := by
  cases hp : st.pFunc_save with
  | none =>
    refine ⟨[], ?_, ?_⟩
    · simp only [save_step, hp, available, List.append_nil]
      rw [← hp]
    · intro g
      simp [stale]
  | some f =>
    cases hc : f.callable with
    | false =>
      refine ⟨[Event.PyCallable_Check Global.pFunc_save], ?_, ?_⟩
      · simp [save_step, hp, available, h, hc, State.emit]
      · intro g
        simp [stale]
    | true =>
      refine ⟨[Event.PyCallable_Check Global.pFunc_save,
        Event.PyObject_CallObject Global.pFunc_save []
          (eng (st.log ++ [Event.PyCallable_Check Global.pFunc_save]) Global.pFunc_save [])],
        ?_, ?_⟩
      · simp [save_step, hp, available, h, hc, State.emit]
      · intro g
        simp [stale]

/-- When the four handles it releases are present and live, the teardown completes and
adds its four releases and the finalisation, in the order of lines 553-557. -/
theorem teardown_ok (st : State)
    (h1 : st.pFunc_checksat ≠ none) (h2 : st.pFunc_storeinfo ≠ none)
    (h3 : st.pFunc_save ≠ none) (h4 : st.pFunc_getval ≠ none)
    (hs : ∀ g, g.isFunc = true → stale st.log g = false) :
    teardown st = .ok { st with log := st.log ++
      [Event.Py_DECREF (Ref.global Global.pFunc_checksat),
       Event.Py_DECREF (Ref.global Global.pFunc_storeinfo),
       Event.Py_DECREF (Ref.global Global.pFunc_save),
       Event.Py_DECREF (Ref.global Global.pFunc_getval),
       Event.Py_Finalize] } := by
  obtain ⟨f1, e1⟩ := Option.ne_none_iff_exists'.1 h1
  obtain ⟨f2, e2⟩ := Option.ne_none_iff_exists'.1 h2
  obtain ⟨f3, e3⟩ := Option.ne_none_iff_exists'.1 h3
  obtain ⟨f4, e4⟩ := Option.ne_none_iff_exists'.1 h4
  have s1 := hs Global.pFunc_checksat rfl
  have s2 := hs Global.pFunc_storeinfo rfl
  have s3 := hs Global.pFunc_save rfl
  have s4 := hs Global.pFunc_getval rfl
  have k2 : stale [Event.Py_DECREF (Ref.global Global.pFunc_checksat)]
      Global.pFunc_storeinfo = false := by simp [stale]
  have k3 : stale [Event.Py_DECREF (Ref.global Global.pFunc_checksat),
      Event.Py_DECREF (Ref.global Global.pFunc_storeinfo)] Global.pFunc_save = false := by
    simp [stale]
  have k4 : stale [Event.Py_DECREF (Ref.global Global.pFunc_checksat),
      Event.Py_DECREF (Ref.global Global.pFunc_storeinfo),
      Event.Py_DECREF (Ref.global Global.pFunc_save)] Global.pFunc_getval = false := by
    simp [stale]
  simp [teardown, Py_DECREF, e1, e2, e3, e4, s1, s2, s3, s4, k2, k3, k4, State.emit,
    stale_append, bind, Except.bind, pure, Except.pure]

/-! ## C8: what the teardown releases -/

/-- C8 (counterexample): the module has all five entry points. After the import
the module handle has already been released (once), before any teardown; the
teardown then adds exactly four releases and the finalisation: it releases
neither the `check_vs` handle nor the module handle. -/
theorem teardown_of_full_module :
    (py_init (some fullModule) State.start).map
      (fun s => (s.log.length, s.log.count (Event.Py_DECREF (Ref.global Global.pModule))))
      = .ok (26, 1) ∧
    ((py_init (some fullModule) State.start).bind teardown).map (fun s => s.log.drop 26) =
      .ok [Event.Py_DECREF (Ref.global Global.pFunc_checksat),
        Event.Py_DECREF (Ref.global Global.pFunc_storeinfo),
        Event.Py_DECREF (Ref.global Global.pFunc_save),
        Event.Py_DECREF (Ref.global Global.pFunc_getval),
        Event.Py_Finalize] :=
  ⟨rfl, rfl⟩

/-- C8 (amended): for every module that has `check_sat`, `store_info`,
`save_info` and `get_val`, every engine and every sequence of facade calls made
by the positioning run: the import, the run and the save step complete; at
that point the module handle has been released exactly once (by the import,
line 430), no entry-point handle has been released and the runtime is not
finalised; the teardown then completes, and apart from what it may do with the
`check_vs` handle it releases the handles of `check_sat`, `store_info`,
`save_info` and `get_val`, once each and in this order, and then finalises the
runtime. -/
theorem teardown_after_import (time2gpst : gtime_t → CDouble × Int) (eng : Engine)
    (md : Module) (reqs : List Request)
    (h1 : md.check_sat ≠ none) (h2 : md.store_info ≠ none)
    (h3 : md.save_info ≠ none) (h4 : md.get_val ≠ none) :
    ∃ st1 st2 st3 st4 t,
      py_init (some md) State.start = .ok st1 ∧
      postpos time2gpst eng reqs st1 = .ok st2 ∧
      save_step eng st2 = .ok st3 ∧
      teardown st3 = .ok st4 ∧
      st3.log.count (Event.Py_DECREF (Ref.global Global.pModule)) = 1 ∧
      (∀ g, g.isFunc = true → stale st3.log g = false) ∧
      st4.log = st3.log ++ t ∧
      t.filter (fun e => e != Event.Py_DECREF (Ref.global Global.pFunc_checkvs)) =
        [Event.Py_DECREF (Ref.global Global.pFunc_checksat),
         Event.Py_DECREF (Ref.global Global.pFunc_storeinfo),
         Event.Py_DECREF (Ref.global Global.pFunc_save),
         Event.Py_DECREF (Ref.global Global.pFunc_getval),
         Event.Py_Finalize] := by
  obtain ⟨t1, e1, q1⟩ := py_init_ok md
  have hs1 : ∀ g, g.isFunc = true → stale (importLog md ++ t1) g = false := by
    intro g hg
    simp [stale_append, importLog_not_stale md g hg, q1 g]
  obtain ⟨t2, e2, q2⟩ := postpos_quiet time2gpst eng reqs
    ⟨md.check_sat, md.store_info, md.save_info, md.get_val, md.check_vs, some md,
      importLog md ++ t1⟩ hs1
  have hs2 : ∀ g, g.isFunc = true → stale (importLog md ++ t1 ++ t2) g = false := by
    intro g hg
    simp only [stale_append, hs1 g hg, q2 g, Bool.or_self]
  obtain ⟨t3, e3, q3⟩ := save_step_quiet eng
    ⟨md.check_sat, md.store_info, md.save_info, md.get_val, md.check_vs, some md,
      importLog md ++ t1 ++ t2⟩ (hs2 Global.pFunc_save rfl)
  have hs3 : ∀ g, g.isFunc = true → stale (importLog md ++ t1 ++ t2 ++ t3) g = false := by
    intro g hg
    simp only [stale_append, hs2 g hg, q3 g, Bool.or_self]
  have e4 := teardown_ok
    ⟨md.check_sat, md.store_info, md.save_info, md.get_val, md.check_vs, some md,
      importLog md ++ t1 ++ t2 ++ t3⟩ h1 h2 h3 h4 hs3
  refine ⟨_, _, _, _, _, e1, e2, e3, e4, ?_, hs3, rfl, ?_⟩
  · have c1 := count_release_of_not_stale t1 Global.pModule (q1 _)
    have c2 := count_release_of_not_stale t2 Global.pModule (q2 _)
    have c3 := count_release_of_not_stale t3 Global.pModule (q3 _)
    simp only [List.count_append, importLog_count, c1, c2, c3]
  · decide

/-- C8 (witness): the full module, with one `is_NLOS` and one `get_coff` call
made by the positioning run. -/
theorem teardown_after_import_witness :
    fullModule.check_sat ≠ none ∧ fullModule.store_info ≠ none ∧
    fullModule.save_info ≠ none ∧ fullModule.get_val ≠ none ∧
    ∃ st1 st2 st3 st4 t,
      py_init (some fullModule) State.start = .ok st1 ∧
      postpos weekSplit (constEngine (PyObject.int 1))
        [Request.is_NLOS "G01" 2200 345600, Request.get_coff "G01" 2200 345600] st1
        = .ok st2 ∧
      save_step (constEngine (PyObject.int 1)) st2 = .ok st3 ∧
      teardown st3 = .ok st4 ∧
      st3.log.count (Event.Py_DECREF (Ref.global Global.pModule)) = 1 ∧
      (∀ g, g.isFunc = true → stale st3.log g = false) ∧
      st4.log = st3.log ++ t ∧
      t.filter (fun e => e != Event.Py_DECREF (Ref.global Global.pFunc_checkvs)) =
        [Event.Py_DECREF (Ref.global Global.pFunc_checksat),
         Event.Py_DECREF (Ref.global Global.pFunc_storeinfo),
         Event.Py_DECREF (Ref.global Global.pFunc_save),
         Event.Py_DECREF (Ref.global Global.pFunc_getval),
         Event.Py_Finalize] :=
  ⟨by decide, by decide, by decide, by decide,
    teardown_after_import weekSplit (constEngine (PyObject.int 1)) fullModule
      [Request.is_NLOS "G01" 2200 345600, Request.get_coff "G01" 2200 345600]
      (by decide) (by decide) (by decide) (by decide)⟩

/-! ## C9: the facade after the teardown -/

/-- A `Py_DECREF` that completes was applied to a non-null handle and added its release
to the log. -/
theorem Py_DECREF_inv (g : Global) (p : Option PyFunc) (st st1 : State)
    (h : Py_DECREF g p st = .ok st1) :
    p ≠ none ∧ st1 = st.emit (Event.Py_DECREF (Ref.global g)) := by
  cases p with
  | none => simp [Py_DECREF] at h
  | some f =>
    cases hs : stale st.log g with
    | true => simp [Py_DECREF, hs] at h
    | false =>
      simp [Py_DECREF, hs] at h
      exact ⟨by simp, h.symm⟩

/-- A teardown that completes found its four handles non-null, left the globals as they
were and added its four releases and the finalisation. -/
theorem teardown_inv (st st1 : State) (h : teardown st = .ok st1) :
    st.pFunc_checksat ≠ none ∧ st.pFunc_storeinfo ≠ none ∧ st.pFunc_save ≠ none ∧
    st.pFunc_getval ≠ none ∧
    st1 = { st with log := st.log ++
      [Event.Py_DECREF (Ref.global Global.pFunc_checksat),
       Event.Py_DECREF (Ref.global Global.pFunc_storeinfo),
       Event.Py_DECREF (Ref.global Global.pFunc_save),
       Event.Py_DECREF (Ref.global Global.pFunc_getval),
       Event.Py_Finalize] } := by
  simp only [teardown, bind, Except.bind, pure, Except.pure] at h
  cases e1 : Py_DECREF Global.pFunc_checksat st.pFunc_checksat st with
  | error e => rw [e1] at h; cases h
  | ok s1 =>
    rw [e1] at h
    dsimp only at h
    obtain ⟨n1, r1⟩ := Py_DECREF_inv _ _ _ _ e1
    cases e2 : Py_DECREF Global.pFunc_storeinfo s1.pFunc_storeinfo s1 with
    | error e => rw [e2] at h; cases h
    | ok s2 =>
      rw [e2] at h
      dsimp only at h
      obtain ⟨n2, r2⟩ := Py_DECREF_inv _ _ _ _ e2
      cases e3 : Py_DECREF Global.pFunc_save s2.pFunc_save s2 with
      | error e => rw [e3] at h; cases h
      | ok s3 =>
        rw [e3] at h
        dsimp only at h
        obtain ⟨n3, r3⟩ := Py_DECREF_inv _ _ _ _ e3
        cases e4 : Py_DECREF Global.pFunc_getval s3.pFunc_getval s3 with
        | error e => rw [e4] at h; cases h
        | ok s4 =>
          rw [e4] at h
          dsimp only at h
          obtain ⟨n4, r4⟩ := Py_DECREF_inv _ _ _ _ e4
          injection h with h
          subst r1
          subst r2
          subst r3
          subst r4
          subst h
          refine ⟨n1, n2, n3, n4, ?_⟩
          simp [State.emit]

/-- C9 (counterexample): the module has all five entry points; import and
teardown complete and the `pFunc_checksat` global still holds its handle. A call
of `is_NLOS` made then hands that handle to `PyCallable_Check` although it has
been released and the runtime is finalised: undefined behaviour, neither
prevented nor reported. -/
theorem is_NLOS_after_teardown_uses_stale_handle :
    ((py_init (some fullModule) State.start).bind teardown).map
      (fun s => (s.pFunc_checksat, stale s.log Global.pFunc_checksat))
      = .ok (some ⟨true⟩, true) ∧
    ((py_init (some fullModule) State.start).bind teardown).bind
      (is_NLOS (constEngine (PyObject.int 1)) "G01" 2200 345600)
      = .error Fault.staleHandle :=
  ⟨rfl, rfl⟩

/-- C9 (amended): in every state `st1` the teardown ends in, the five globals
hold what they held before (nothing resets them), those of `check_sat`,
`store_info` and `get_val` are not null, and nothing prevents a facade call. A
facade function called in `st1` whose slot is not null hands the stale handle
to `PyCallable_Check` (the fault `staleHandle` of the model: undefined
behaviour in C, no error is reported); only when its slot is null does it
return its fallback (`1.0`, `0`, `0`, `-1`) without a call into the engine. -/
theorem facade_after_teardown (time2gpst : gtime_t → CDouble × Int) (eng : Engine)
    (rq : Request) (st st1 : State) (h : teardown st = .ok st1) :
    st1.pFunc_checksat = st.pFunc_checksat ∧ st1.pFunc_storeinfo = st.pFunc_storeinfo ∧
    st1.pFunc_save = st.pFunc_save ∧ st1.pFunc_getval = st.pFunc_getval ∧
    st1.pFunc_checkvs = st.pFunc_checkvs ∧
    st1.pFunc_checksat ≠ none ∧ st1.pFunc_storeinfo ≠ none ∧ st1.pFunc_getval ≠ none ∧
    (rq.slot st1 ≠ none → rq.run time2gpst eng st1 = .error Fault.staleHandle) ∧
    (rq.slot st1 = none → ∃ st2, rq.run time2gpst eng st1 = .ok (rq.fallback, st2) ∧
      engineCalls st2.log = engineCalls st1.log) := by
  obtain ⟨n1, n2, n3, n4, e⟩ := teardown_inv st st1 h
  have hfin : Event.Py_Finalize ∈ st1.log := by
    rw [e]
    simp
  have hst : ∀ g, stale st1.log g = true := fun g => stale_of_finalized _ g hfin
  have hst2 : ∀ (g : Global) (x : Event), stale (st1.log ++ [x]) g = true := by
    intro g x
    simp [stale_append, hst g]
  refine ⟨by rw [e], by rw [e], by rw [e], by rw [e], by rw [e], by rw [e]; exact n1,
    by rw [e]; exact n2, by rw [e]; exact n4, ?_, ?_⟩
  · intro hn
    obtain ⟨f, hf⟩ := Option.ne_none_iff_exists'.1 hn
    cases rq with
    | get_coff id week gpst =>
      simp only [Request.slot] at hf
      simp [Request.run, get_coff, hf, available, hst, Except.map]
    | is_NLOS id week gpst =>
      simp only [Request.slot] at hf
      simp [Request.run, is_NLOS, hf, available, hst, Except.map]
    | is_VS id week gpst =>
      simp only [Request.slot] at hf
      simp [Request.run, is_VS, hf, available, hst2, State.emit, Except.map]
    | store_info gtime key val =>
      simp only [Request.slot] at hf
      simp [Request.run, store_info, hf, available, hst, Except.map]
  · intro hf
    cases rq with
    | get_coff id week gpst =>
      simp only [Request.slot] at hf
      simp [Request.run, Request.fallback, get_coff, hf, available, Except.map, State.emit,
        engineCalls, Event.isCall]
    | is_NLOS id week gpst =>
      simp only [Request.slot] at hf
      simp [Request.run, Request.fallback, is_NLOS, hf, available, Except.map, State.emit,
        engineCalls, Event.isCall]
    | is_VS id week gpst =>
      simp only [Request.slot] at hf
      simp [Request.run, Request.fallback, is_VS, hf, available, Except.map, State.emit,
        engineCalls, Event.isCall]
    | store_info gtime key val =>
      simp only [Request.slot] at hf
      simp [Request.run, Request.fallback, store_info, hf, available, Except.map, State.emit,
        engineCalls, Event.isCall]

/-- C9 (witness): the teardown of the ready state, then a call of `is_NLOS`. -/
theorem facade_after_teardown_witness :
    teardown readyState = .ok tornDownState ∧
    (tornDownState.pFunc_checksat = readyState.pFunc_checksat ∧
    tornDownState.pFunc_storeinfo = readyState.pFunc_storeinfo ∧
    tornDownState.pFunc_save = readyState.pFunc_save ∧
    tornDownState.pFunc_getval = readyState.pFunc_getval ∧
    tornDownState.pFunc_checkvs = readyState.pFunc_checkvs ∧
    tornDownState.pFunc_checksat ≠ none ∧ tornDownState.pFunc_storeinfo ≠ none ∧
    tornDownState.pFunc_getval ≠ none ∧
    ((Request.is_NLOS "G01" 2200 345600).slot tornDownState ≠ none →
      (Request.is_NLOS "G01" 2200 345600).run weekSplit (constEngine (PyObject.int 1))
        tornDownState = .error Fault.staleHandle) ∧
    ((Request.is_NLOS "G01" 2200 345600).slot tornDownState = none →
      ∃ st2, (Request.is_NLOS "G01" 2200 345600).run weekSplit (constEngine (PyObject.int 1))
          tornDownState = .ok ((Request.is_NLOS "G01" 2200 345600).fallback, st2) ∧
        engineCalls st2.log = engineCalls tornDownState.log)) :=
  ⟨rfl, facade_after_teardown weekSplit (constEngine (PyObject.int 1))
    (Request.is_NLOS "G01" 2200 345600) readyState tornDownState rfl⟩

/-! ## C11: the `-sys` option -/

/-- What the `switch` does for each letter: entering at a label runs the
statement of that label and of every label after it. -/
theorem sysSwitch_letters (c : SysMasks) (n : Nat) :
    sysSwitch c 'G' n =
      n ||| c.SYS_GPS ||| c.SYS_GLO ||| c.SYS_GAL ||| c.SYS_QZS ||| c.SYS_BDS ||| c.SYS_IRN ∧
    sysSwitch c 'R' n = n ||| c.SYS_GLO ||| c.SYS_GAL ||| c.SYS_QZS ||| c.SYS_BDS ||| c.SYS_IRN ∧
    sysSwitch c 'E' n = n ||| c.SYS_GAL ||| c.SYS_QZS ||| c.SYS_BDS ||| c.SYS_IRN ∧
    sysSwitch c 'J' n = n ||| c.SYS_QZS ||| c.SYS_BDS ||| c.SYS_IRN ∧
    sysSwitch c 'C' n = n ||| c.SYS_BDS ||| c.SYS_IRN ∧
    sysSwitch c 'I' n = n ||| c.SYS_IRN :=
  ⟨rfl, rfl, rfl, rfl, rfl, rfl⟩

/-- The result of `strchr` is a non-empty part of the string searched. -/
theorem strchr_length (p : List Char) (ch : Char) (q : List Char)
    (h : strchr p ch = some q) : q.tail.length < p.length := by
  induction p with
  | nil => simp [strchr] at h
  | cons x xs ih =>
    by_cases hx : x = ch
    · simp [strchr, hx] at h
      subst h
      simp
    · simp only [strchr, hx, if_false] at h
      have := ih h
      simp only [List.length_cons]
      omega

/-- Fuel of at least the length of the string is enough for the loop: more fuel
gives the same result. -/
theorem sysLoop_fuel (c : SysMasks) :
    ∀ (f1 f2 : Nat) (p : List Char) (n : Nat), p.length ≤ f1 → p.length ≤ f2 →
      sysLoop c f1 p n = sysLoop c f2 p n := by
  intro f1
  induction f1 with
  | zero =>
    intro f2 p n h1 _
    have hp : p = [] := List.length_eq_zero.1 (Nat.le_zero.1 h1)
    subst hp
    cases f2 <;> rfl
  | succ k ih =>
    intro f2 p n h1 h2
    cases p with
    | nil => cases f2 <;> rfl
    | cons ch rest =>
      cases f2 with
      | zero => simp at h2
      | succ m =>
        simp only [sysLoop]
        cases hq : strchr (ch :: rest) ',' with
        | none => rfl
        | some q =>
          have hl := strchr_length (ch :: rest) ',' q hq
          simp only [List.length_cons] at hl h1 h2
          exact ih m q.tail _ (by omega) (by omega)

/-- Without a `-sys` option (and with the mask at `0` when the option loop
starts) the mask is `SYS_GPS | SYS_GLO` (lines 398-401). -/
theorem main_navsys_default (c : SysMasks) :
    main_navsys c 0 [] = c.SYS_GPS ||| c.SYS_GLO := by
  simp [main_navsys]

/-- C11 (the code at the failing inputs): with one bit for each system, the
command line `-sys G` gives the mask `0x7d` of all six systems, where the help
text of line 53 describes `0x01` (GPS alone), and `-sys E,C` gives `0x78`
(GAL, QZS, BDS and IRN) where the help text describes `0x28` (GAL and BDS):
the `switch` of lines 325-339 has no `break`, so each letter also selects every
system after it in the order G, R, E, J, C, I. Only `-sys I` and the default
without `-sys` are as described. -/
theorem sys_option_selects_later_systems :
    main_navsys rtklibMasks 0 ["G"] = 0x7d ∧ listedSystems rtklibMasks ['G'] = 0x01 ∧
    main_navsys rtklibMasks 0 ["E,C"] = 0x78 ∧ listedSystems rtklibMasks ['E', 'C'] = 0x28 ∧
    main_navsys rtklibMasks 0 ["I"] = 0x40 ∧ listedSystems rtklibMasks ['I'] = 0x40 ∧
    main_navsys rtklibMasks 0 [] = 0x05 :=
  ⟨rfl, rfl, rfl, rfl, rfl, rfl, rfl⟩

end Rnx2rtkp
